import Mathlib

/-!
Verification development for `src/notifier.py` of
apache/infrastructure-github-event-notifier.

The Python module is shallowly embedded: every dict is an association
list, every function that can raise maps into `Except String`, and the
external collaborators (on-disk repository lookup, settings yaml, the
legacy git config reader, the known-robots file, the per-repository
github settings yaml) are captured in an explicit `Env` record whose
fields describe the observable outcome of each external read.
-/

deriving instance DecidableEq for Except

namespace GithubEventNotifier

/-! ### Kernel-reducible string primitives

The embedding only uses string operations defined by structural
recursion over the character list, so that concrete runs of the
embedded code evaluate inside the kernel (`decide`/`rfl`). -/

/-- Whitespace for Python `str.strip()` (the characters that occur in
the inputs at hand). -/
def isPySpace (c : Char) : Bool :=
  c = ' ' ∨ c = '\t' ∨ c = '\n' ∨ c = '\r'

/-- Python `str.strip()`. -/
def pyStrip (s : String) : String :=
  ⟨((s.data.dropWhile isPySpace).reverse.dropWhile isPySpace).reverse⟩

/-- `l1` is a prefix of `l2`. -/
def chLeads : List Char → List Char → Bool
  | [], _ => true
  | _ :: _, [] => false
  | a :: as, b :: bs => a = b && chLeads as bs

/-- Python `s.startswith(pre)`. -/
def strStarts (s pre : String) : Bool :=
  chLeads pre.data s.data

/-- `sub` occurs somewhere in `l` (Python `sub in s`). -/
def chContainsSub (sub : List Char) : List Char → Bool
  | [] => chLeads sub []
  | c :: rest => chLeads sub (c :: rest) || chContainsSub sub rest

/-- Python `sub in s` for strings. -/
def strContainsSub (s sub : String) : Bool :=
  chContainsSub sub.data s.data

/-- Remove every (non-overlapping, left-to-right) occurrence of `sub`,
fuelled by the input length so the recursion is structural; one unit of
fuel is spent per step and every step consumes at least one character,
so fuel `l.length` is always enough. -/
def chRemoveFuel (sub : List Char) : Nat → List Char → List Char
  | 0, l => l
  | _ + 1, [] => []
  | n + 1, c :: rest =>
    if sub ≠ [] ∧ chLeads sub (c :: rest) then
      chRemoveFuel sub n ((c :: rest).drop sub.length)
    else c :: chRemoveFuel sub n rest

/-- Python `s.replace(sub, "")`. -/
def strRemoveAll (s sub : String) : String :=
  ⟨chRemoveFuel sub.data s.data.length s.data⟩

/-- The part of `l` before the first occurrence of `sub` (all of `l`
when `sub` does not occur): Python `s.split(sub, 1)[0]`. -/
def chBefore (sub : List Char) : List Char → List Char
  | [] => []
  | c :: rest => if chLeads sub (c :: rest) then [] else c :: chBefore sub rest

/-- Python `s.split(sub, 1)[0]`. -/
def strBefore (s sub : String) : String :=
  ⟨chBefore sub.data s.data⟩

/-- Drop the first `n` characters. -/
def strDrop (s : String) (n : Nat) : String :=
  ⟨s.data.drop n⟩

/-- Python `sep.join(xs)`. -/
def joinWith (sep : String) : List String → String
  | [] => ""
  | [x] => x
  | x :: y :: rest => x ++ sep ++ joinWith sep (y :: rest)

/-- Python `"%s" % x` / f-string rendering of a possibly-absent string:
`None` prints as `"None"`. -/
def pyStr : Option String → String
  | none => "None"
  | some s => s

/-- Python truthiness of a possibly-absent string: `None` and `""` are falsy. -/
def truthy : Option String → Bool
  | none => false
  | some s => s ≠ ""

/-! ## Bot classifier (`is_bot`, lines 61-72)

`KNOWN_BOTS_FILE` is external; `botLines` is `none` when the file is
missing and otherwise holds the lines of the file (as `readlines`
produces them, before stripping). -/

/-- Lines of the known-robots file that survive the comment filter and the
non-empty filter, in source order (lines 66-71). -/
def knownRobots : Option (List String) → List String
  | none => []
  | some lines =>
    ((lines.filter (fun x => ¬ strStarts x "#")).map pyStrip).filter (fun b => b ≠ "")

/-- `"[bot]" in userid` (line 63). -/
def hasBotMarker (userid : String) : Bool :=
  strContainsSub userid "[bot]"

/-- `is_bot` (lines 61-72): the `[bot]` marker, or membership in the
known-robots file. -/
def is_bot (botLines : Option (List String)) (userid : String) : Bool :=
  hasBotMarker userid || (knownRobots botLines).contains userid

/-! ## Constants (lines 40-52) -/

/-- `DEFAULT_DIFF_WAIT = 10` (line 42): the collation quiet period in seconds. -/
def DEFAULT_DIFF_WAIT : Int := 10

/-- `DIFF_COMMENT_BLURB % locals()` (lines 44-52, 82): one formatted
per-file review-comment block. -/
def DIFF_COMMENT_BLURB (filename diff text : String) : String :=
  "\n##########\n" ++ filename ++ ":\n##########\n" ++ diff ++
    "\n\nReview Comment:\n" ++ text ++ "\n"

/-! ## Event payloads

A pubsub payload record, with exactly the fields `handle_payload` reads.
Fields fetched with `payload.get(key)` (no default) are `Option String`
(`none` = key absent, which Python reads as `None`); fields fetched with
`payload.get(key, "")` are plain strings.  `changes` is only ever used
for its truthiness (line 287), so only presence/truthiness is kept. -/

/-- Presence/truthiness of `payload.get("changes")` (line 287):
absent, or present with a falsy value (`null`, `{}`, ...), or present
with a truthy value. -/
inductive ChangesVal where
  | absent
  | presentFalsy
  | presentTruthy
deriving DecidableEq

structure Payload where
  user : Option String
  action : Option String
  repo : Option String
  typ : Option String
  node_id : Option String
  title : String
  text : String
  id : String
  link : String
  filename : String
  diff : String
  changes : ChangesVal
deriving DecidableEq

/-- `DiffComments` (lines 75-83): one pending collation batch. -/
structure DiffComments where
  created : Int
  diffs : List String
  payload : Payload
deriving DecidableEq

/-! ## Templates and substitution

`"%(name)s"`-style (and `.format`-style) patterns are represented as
token lists; substitution looks each variable up in an explicit map of
the local string variables in scope, and an unknown variable is the
`KeyError` the source catches at line 281. -/

inductive Tok where
  | lit (s : String)
  | var (n : String)
deriving DecidableEq

/-- Pattern substitution; `.error` models the `KeyError`/`ValueError`
raised by `%`-formatting or `.format` on an unknown placeholder. -/
def renderToks : List Tok → List (String × String) → Except String String
  | [], _ => .ok ""
  | Tok.lit s :: ts, m =>
    match renderToks ts m with
    | .ok r => .ok (s ++ r)
    | .error e => .error e
  | Tok.var n :: ts, m =>
    match m.lookup n with
    | some v =>
      match renderToks ts m with
      | .ok r => .ok (v ++ r)
      | .error e => .error e
    | none => .error "KeyError"

/-- The process configuration (`github-event-notifier.yaml`), restricted
to the keys the embedded code reads.  Templates are stored already
loaded, as `__init__` (lines 87-100) leaves them: key to
(subject pattern, body pattern). -/
structure Config where
  templates : List (String × (List Tok × List Tok))
  only : Option (List String)
  ignore : Option (List String)
  default_recipient : String
  jira_default_options : String

/-! ## External reads (`Env`) -/

/-- Outcome of reading the per-repository settings (scheme) file
(lines 142-147): missing, unparsable yaml (swallowed, line 146-147),
a yaml mapping, or parsable yaml that is not a mapping (`null`, a list,
a scalar) - the latter raises `TypeError` once the legacy weave touches
it (lines 155-168). -/
inductive SchemeVal where
  | absent
  | parseFail
  | mapping (m : List (String × Option String))
  | nonMapping
deriving DecidableEq

/-- The legacy per-repo git config, as a (section, option) store.
`get` on a missing section/option raises (configparser
`NoSectionError`/`NoOptionError`), which `Except` records. -/
structure GitCfg where
  entries : List ((String × String) × String)
deriving DecidableEq

def GitCfg.lookupOpt (cfg : GitCfg) (sec opt : String) : Option String :=
  cfg.entries.lookup (sec, opt)

def GitCfg.hasOpt (cfg : GitCfg) (sec opt : String) : Bool :=
  (cfg.lookupOpt sec opt).isSome

/-- `cfg.get(section, option)`: raises when the section/option is absent. -/
def GitCfg.get (cfg : GitCfg) (sec opt : String) : Except String String :=
  match cfg.lookupOpt sec opt with
  | some v => .ok v
  | none => .error "NoSectionError"

/-- Outcome of reading `/x1/asfyaml/ghsettings.<repo>.yml`
(lines 115-126): missing file (implicit `None`); a
`yaml.parser.ParserError` (the only exception line 119 catches --
returns `None`); any *other* yaml load error (`ScannerError`,
`ComposerError`, ...), which is NOT caught and propagates; a file that
parses to a non-dict (empty file gives `None`, or a list/scalar), on
which `yml.get("custom_subjects")` at line 121 raises
`AttributeError`; or a loaded dict whose `custom_subjects` entry is
`none` when absent or not itself a truthy dict. -/
inductive GhSettings where
  | missing
  | parseFail
  | scanFail
  | nonDict
  | loaded (customSubjects : Option (List (String × List Tok)))
deriving DecidableEq

/-- All external state one dispatch can observe, for a fixed repository. -/
structure Env where
  repoLocated : Bool
  schemeFile : SchemeVal
  gitcfg : GitCfg
  botLines : Option (List String)
  ghsettings : GhSettings

/-! ## Recipient resolution (`get_recipient`, lines 128-220) -/

/-- The leading run of non-hyphen characters of a string. -/
def nonHyphenHead (s : String) : String :=
  ⟨s.data.takeWhile (fun c => c ≠ '-')⟩

/-- `RE_PROJECT.match(repository)` + group(1) with the `"infra"` fallback
(lines 40, 129-133).  The regex `(?:incubator-)?([^-]+)` backtracks: the
`incubator-` prefix is only consumed when a non-empty non-hyphen run
follows it; failing that, `[^-]+` is retried at position 0; if that also
fails there is no match and the source falls back to `"infra"`. -/
def projectOf (repository : String) : String :=
  if strStarts repository "incubator-" ∧ nonHyphenHead (strDrop repository 10) ≠ "" then
    nonHyphenHead (strDrop repository 10)
  else if nonHyphenHead repository ≠ "" then
    nonHyphenHead repository
  else "infra"

def hasKeyS (sch : List (String × Option String)) (k : String) : Bool :=
  (sch.lookup k).isSome

/-- `scheme[k] = v` on a dict missing `k`: appends in insertion order. -/
def setKey (sch : List (String × Option String)) (k : String) (v : Option String) :
    List (String × Option String) :=
  sch ++ [(k, v)]

/-- Lines 154-156: fill `commits` from `hooks.asfgit/recips` (an
unguarded `cfg.get`, so a missing section raises) with
`default_recipient` replacing an empty value. -/
def weaveCommits (cfg : Config) (env : Env) (sch : List (String × Option String)) :
    Except String (List (String × Option String)) :=
  if hasKeyS sch "commits" then .ok sch
  else
    match env.gitcfg.get "hooks.asfgit" "recips" with
    | .error e => .error e
    | .ok v => .ok (setKey sch "commits" (some (if v = "" then cfg.default_recipient else v)))

/-- The `apache/dev` value (`default_issue`, line 159); only read after
`has_option` has confirmed it is present. -/
def apacheDev (env : Env) : String :=
  (env.gitcfg.lookupOpt "apache" "dev").getD ""

/-- The `apache/jira` value (`default_jira`, line 166). -/
def apacheJira (env : Env) : String :=
  (env.gitcfg.lookupOpt "apache" "jira").getD ""

/-- Lines 160-161: fill a missing `issues` key from `apache/dev`. -/
def weaveIssues (env : Env) (sch : List (String × Option String)) :
    List (String × Option String) :=
  if hasKeyS sch "issues" then sch else setKey sch "issues" (some (apacheDev env))

/-- Lines 162-163: fill a missing `pullrequests` key from `apache/dev`. -/
def weavePR (env : Env) (sch : List (String × Option String)) :
    List (String × Option String) :=
  if hasKeyS sch "pullrequests" then sch else setKey sch "pullrequests" (some (apacheDev env))

/-- Lines 158-163: fill `issues`/`pullrequests` from `apache/dev`,
guarded by `has_option`. -/
def weaveDev (env : Env) (sch : List (String × Option String)) :
    List (String × Option String) :=
  if env.gitcfg.hasOpt "apache" "dev" then weavePR env (weaveIssues env sch) else sch

/-- Lines 165-168: fill `jira_options` from `apache/jira`, guarded by
`has_option`. -/
def weaveJira (env : Env) (sch : List (String × Option String)) :
    List (String × Option String) :=
  if env.gitcfg.hasOpt "apache" "jira" then
    (if hasKeyS sch "jira_options" then sch else setKey sch "jira_options" (some (apacheJira env)))
  else sch

/-- Lines 134-168: assemble the layered `scheme` dict.  When the
repository path is not located on disk the whole block is skipped and
the scheme stays empty. -/
def buildScheme (cfg : Config) (env : Env) : Except String (List (String × Option String)) :=
  if env.repoLocated then
    match env.schemeFile with
    | SchemeVal.nonMapping => .error "TypeError"
    | SchemeVal.mapping m =>
      match weaveCommits cfg env m with
      | .error e => .error e
      | .ok s1 => .ok (weaveJira env (weaveDev env s1))
    | _ =>
      match weaveCommits cfg env [] with
      | .error e => .error e
      | .ok s1 => .ok (weaveJira env (weaveDev env s1))
  else .ok []

/-- Line 173: `itype == "issue" and "issues" or "pullrequests"`. -/
def issueTypeOf (itype : String) : String :=
  if itype = "issue" then "issues" else "pullrequests"

/-- Lines 176-180: classify the action as comment-like, status-like or
unknown. -/
def eventCategoryOf (action : String) : String :=
  if action ∈ ["comment", "diffcomment", "diffcomment_collated", "edited", "deleted", "created"]
  then "comment"
  else if action ∈ ["open", "close", "merge"] then "status"
  else "unknown"

/-- Lines 182-211: the ordered candidate rule keys, bot-specific rules
first for bots, then the two generic rules for everyone. -/
def ruleOrder (botLines : Option (List String)) (itype action userid : String) : List String :=
  let issue_type := issueTypeOf itype
  let event_category := eventCategoryOf action
  let u := strRemoveAll userid "[bot]"
  (if is_bot botLines userid then
    [issue_type ++ "_" ++ event_category ++ "_bot_" ++ u,
     issue_type ++ "_bot_" ++ u]
   else []) ++
  [issue_type ++ "_" ++ event_category, issue_type]

/-- `key in scheme and scheme[key]` (lines 205, 210): the key is present
and its value is truthy. -/
def schemeHit (sch : List (String × Option String)) (k : String) : Option String :=
  match sch.lookup k with
  | some (some v) => if v ≠ "" then some v else none
  | _ => none

/-- The first candidate key present in the scheme with a truthy value. -/
def firstHit (sch : List (String × Option String)) : List String → Option String
  | [] => none
  | k :: rest =>
    match schemeHit sch k with
    | some v => some v
    | none => firstHit sch rest

/-- `get_recipient` (lines 128-220).  The result is `Option String`
because `return scheme["commits"]` can return a yaml `null`
(Python `None`); `.error` records a raised exception. -/
def get_recipient (cfg : Config) (env : Env) (repository itype action : String)
    (userid : Option String) : Except String (Option String) :=
  let project := projectOf repository
  match buildScheme cfg env with
  | .error e => .error e
  | .ok scheme =>
    let branch : Option (Option String) :=
      if scheme ≠ [] then
        if (itype ≠ "commit" ∧ itype ≠ "jira") ∧ truthy userid then
          match firstHit scheme (ruleOrder env.botLines itype action (pyStr userid)) with
          | some v => some (some v)
          | none => none
        else if itype = "commit" ∧ hasKeyS scheme "commits" then
          some ((scheme.lookup "commits").getD none)
        else if itype = "jira" then
          some ((scheme.lookup "jira_options").getD (some cfg.jira_default_options))
        else none
      else none
    match branch with
    | some r => .ok r
    | none =>
      if itype = "jira" then .ok (some cfg.jira_default_options)
      else .ok (some ("dev@" ++ project ++ ".apache.org"))

/-! ## Custom subjects (`get_custom_subject`, lines 102-126) -/

/-- The `action_map` rewrites (lines 105-111). -/
def actionMapped (action : String) : String :=
  if action = "created_issue" then "comment_issue"
  else if action = "created_pr" then "comment_pr"
  else if action = "diffcomment_collated_pr" then "diffcomment"
  else if action = "open_issue" then "new_issue"
  else if action = "open_pr" then "new_pr"
  else action

/-- `get_custom_subject` (lines 102-126): the per-repository subject
override for an action, falling back to `catchall`, or `.ok none` (the
function's implicit `None`) when the file is missing, hits the one
*caught* parser error, or has no truthy `custom_subjects` dict.
`.error` models the two uncaught paths: a yaml load error other than
`yaml.parser.ParserError` (line 119 catches only that one), and the
`AttributeError` from `yml.get` at line 121 when the yaml loaded to a
non-dict. -/
def get_custom_subject (env : Env) (action : String) : Except String (Option (List Tok)) :=
  let a := actionMapped action
  match env.ghsettings with
  | GhSettings.missing => .ok none
  | GhSettings.parseFail => .ok none
  | GhSettings.scanFail => .error "yaml.scanner.ScannerError"
  | GhSettings.nonDict => .error "AttributeError: no attribute get"
  | GhSettings.loaded none => .ok none
  | GhSettings.loaded (some cs) =>
    if cs ≠ [] then
      match cs.lookup a with
      | some v => .ok (some v)
      | none => .ok (cs.lookup "catchall")
    else .ok none

/-! ## The dispatch pipeline (`handle_payload`, lines 222-313) -/

/-- One `asfpy.messaging.mail(...)` call (lines 296-303). -/
structure Mail where
  sender : String
  recipient : String
  subject : String
  message : String
  messageid : String
  inReplyTo : Option String
deriving DecidableEq

/-- One `notify_jira(...)` call (line 307); `notify_jira` itself wraps
all tracker REST traffic in `try/except` (lines 367-385) so it never
raises, and the call record is the observable effect. -/
structure JiraCall where
  jopts : String
  prid : String
  prtitle : String
  prmessage : String
  prlink : String
deriving DecidableEq

/-- Observable outcome of one dispatch (or one flush): the pending
collation table afterwards, the mail calls, the tracker calls, and the
payloads re-dispatched from `flush` (empty for a live dispatch). -/
structure DispatchOut where
  state : List (String × DiffComments)
  mails : List Mail
  jiras : List JiraCall
  dispatched : List Payload
deriving DecidableEq

/-- Line 256: `payload.get("type") == "issue" and "issue" or "pr"`. -/
def categoryOf (p : Payload) : String :=
  if p.typ = some "issue" then "issue" else "pr"

/-- Line 260: the collation key `f"{repository}-{pr_id}-{user}"`. -/
def collationKey (p : Payload) : String :=
  pyStr p.repo ++ "-" ++ p.id ++ "-" ++ pyStr p.user

/-- Lines 261-263: create the batch for the key on first use, then append
one formatted block to it.  Python dicts append new keys in insertion
order. -/
def addDiff (now : Int) (st : List (String × DiffComments)) (uid : String) (p : Payload)
    (filename diff text : String) : List (String × DiffComments) :=
  let st1 := if (st.lookup uid).isSome then st else st ++ [(uid, ⟨now, [], p⟩)]
  st1.map (fun e =>
    if e.1 = uid then (e.1, { e.2 with diffs := e.2.diffs ++ [DIFF_COMMENT_BLURB filename diff text] })
    else e)

/-- Python `x in l` where `x` may be `None` and `l` is a list of strings. -/
def optMemList : Option String → List String → Bool
  | some s, l => l.contains s
  | none, _ => false

/-- Lines 245-248: the `only` allow-list and `ignore` deny-list gates
(both produce the same silent drop, so they are combined). -/
def droppedByFilters (cfg : Config) (repository : Option String) : Bool :=
  (match cfg.only with
   | some l => ! optMemList repository l
   | none => false) ||
  (match cfg.ignore with
   | some l => optMemList repository l
   | none => false)

/-- The local string variables visible to `% locals()` / `.format(**locals())`
at the render site (lines 277-280), keyed by their Python names. -/
def localsMap (user action repository title text issue_id link filename diff pr_id category
    node_id real_action ml ml_list ml_domain : String) : List (String × String) :=
  [("user", user), ("action", action), ("repository", repository), ("title", title),
   ("text", text), ("issue_id", issue_id), ("link", link), ("filename", filename),
   ("diff", diff), ("pr_id", pr_id), ("category", category), ("node_id", node_id),
   ("real_action", real_action), ("ml", ml), ("ml_list", ml_list), ("ml_domain", ml_domain)]

/-- The pending-collation table after the collation gate (lines 259-263)
of one dispatch: a `diffcomment` action adds one block under the
collation key, anything else leaves the table alone (Python
`action == "diffcomment"` is `False` for `action = None`). -/
def eventState (now : Int) (st : List (String × DiffComments)) (p : Payload) :
    List (String × DiffComments) :=
  if p.action = some "diffcomment" then
    addDiff now st (collationKey p) p p.filename p.diff p.text
  else st

/-- The mail/tracker calls of one dispatch (lines 240-307, everything
except the collation-table write, which only feeds *later* dispatches
and is split into `eventState`).  `.error` models an exception escaping
to the listener loop.  Error sites, in source order:
* line 258 `action + "_"` with `action = None` raises `TypeError`;
* line 129 `RE_PROJECT.match(None)` (via line 265) raises `TypeError`;
* `get_recipient` itself can raise (non-mapping settings yaml at
  lines 155-168, unguarded `cfg.get` at line 156);
* line 267 `ml.split("@", 1)` unpacking raises `ValueError` when the
  address has no `"@"`, and `AttributeError` when `ml` is `None`. -/
def handle_core (cfg : Config) (env : Env) (uuid : String) (p : Payload) :
    Except String (List Mail × List JiraCall) :=
  let category := categoryOf p
  match p.action with
  | none => .error "TypeError: can only concatenate str"
  | some act =>
    let real_action := act ++ "_" ++ category
    match p.repo with
    | none => .error "TypeError: expected string or bytes-like object"
    | some repo =>
      match get_recipient cfg env repo (p.typ.getD "pullrequest") act p.user with
      | .error e => .error e
      | .ok none => .error "AttributeError: NoneType has no attribute split"
      | .ok (some ml) =>
        if ¬ ml.data.contains '@' then .error "ValueError: not enough values to unpack"
        else
          let ml_list : String := ⟨ml.data.takeWhile (fun c => c ≠ '@')⟩
          let ml_domain : String := ⟨(ml.data.dropWhile (fun c => c ≠ '@')).tail⟩
          match cfg.templates.lookup real_action with
          | none => .ok ([], [])
          | some (subjToks, bodyToks) =>
            let m := localsMap (pyStr p.user) act (pyStr p.repo) p.title p.text p.id p.link
              p.filename p.diff p.id category (pyStr p.node_id) real_action ml ml_list ml_domain
            match get_custom_subject env real_action with
            | .error e => .error e
            | .ok customSubj =>
            let subjResult :=
              match customSubj with
              | some toks => if toks ≠ [] then renderToks toks m else renderToks subjToks m
              | none => renderToks subjToks m
            match subjResult with
            | .error _ => .ok ([], [])
            | .ok subject_line =>
              match renderToks bodyToks m with
              | .error _ => .ok ([], [])
              | .ok real_text =>
                let msgid_OP := "<" ++ pyStr p.node_id ++ "@gitbox.apache.org>"
                let newThread := act = "open" ∧ p.changes ≠ ChangesVal.presentTruthy
                let msgid :=
                  if newThread then msgid_OP
                  else "<" ++ pyStr p.node_id ++ "-" ++ uuid ++ "@gitbox.apache.org>"
                let hdr : Option String := if newThread then none else some msgid_OP
                let mail : Mail :=
                  ⟨"\"" ++ pyStr p.user ++ " (via GitHub)\" <git@apache.org>", ml,
                   subject_line, real_text, msgid, hdr⟩
                match get_recipient cfg env repo "jira" "comment" none with
                | .error e => .error e
                | .ok joptsOpt =>
                  let jiras : List JiraCall :=
                    if truthy joptsOpt then
                      [⟨pyStr joptsOpt, p.id, p.title, strBefore real_text "-- ", p.link⟩]
                    else []
                  .ok ([mail], jiras)

/-- `handle_payload` for a truthy payload (lines 240-307): the filter
gates, then the collation-table write, then the routed/rendered
effects. -/
def handle_event (cfg : Config) (env : Env) (now : Int) (uuid : String)
    (st : List (String × DiffComments)) (p : Payload) : Except String DispatchOut :=
  if droppedByFilters cfg p.repo then .ok ⟨st, [], [], []⟩
  else
    match handle_core cfg env uuid p with
    | .error e => .error e
    | .ok (ms, js) => .ok ⟨eventState now st p, ms, js, []⟩

/-- Lines 227-229: the in-place mutation of the stored batch payload
before re-dispatch: `payload["diff"] = "\n\n".join(...)` and
`payload["action"] = "diffcomment_collated"` write into the very dict
held by the batch (and by whoever else aliases it). -/
def collatedPayload (dc : DiffComments) : Payload :=
  { dc.payload with
    diff := joinWith "\n\n" dc.diffs
    action := some "diffcomment_collated" }

/-- The loop of `flush` (lines 224-231): scan the batch table in order,
re-dispatch every batch older than the quiet period through
`handle_payload`, and record its key for removal.  The table passed to
each re-dispatch is threaded through, as the dispatches share
`self.diffcomments`. -/
def flushIter (cfg : Config) (env : Env) (now : Int) (uuid : String) :
    List (String × DiffComments) → List (String × DiffComments) →
    Except String (List String × List (String × DiffComments) × List Mail × List JiraCall × List Payload)
  | [], cur => .ok ([], cur, [], [], [])
  | (uid, dc) :: rest, cur =>
    if dc.created < now - DEFAULT_DIFF_WAIT then
      match handle_event cfg env now uuid cur (collatedPayload dc) with
      | .error e => .error e
      | .ok out =>
        match flushIter cfg env now uuid rest out.state with
        | .error e => .error e
        | .ok (rem, fin, ms, js, ds) =>
          .ok (uid :: rem, fin, out.mails ++ ms, out.jiras ++ js, collatedPayload dc :: ds)
    else flushIter cfg env now uuid rest cur

/-- `flush` (lines 222-233): dispatch the expired batches, then delete
their keys from the table. -/
def flush (cfg : Config) (env : Env) (now : Int) (uuid : String)
    (st : List (String × DiffComments)) : Except String DispatchOut :=
  match flushIter cfg env now uuid st st with
  | .error e => .error e
  | .ok (rem, fin, ms, js, ds) =>
    .ok ⟨fin.filter (fun e => ! rem.contains e.1), ms, js, ds⟩

/-- `handle_payload` (lines 235-239 entry): a falsy payload is the
heartbeat that triggers a flush; otherwise the event pipeline runs. -/
def handle_payload (cfg : Config) (env : Env) (now : Int) (uuid : String)
    (st : List (String × DiffComments)) (raw : Option Payload) : Except String DispatchOut :=
  match raw with
  | none => flush cfg env now uuid st
  | some p => handle_event cfg env now uuid st p

/-! ## Spec-side definition for claim C4 -/

/-- Modelled from the spec claim wording for C4 (not from the source):
"the repository id with an `incubator-` prefix stripped and truncated at
the first hyphen". -/
def claimProject (s : String) : String :=
  nonHyphenHead (if strStarts s "incubator-" then strDrop s 10 else s)

/-! ## Association-list lemmas -/

theorem lookup_append_some {β : Type} {l1 l2 : List (String × β)} {k : String} {v : β}
    (h : l1.lookup k = some v) : (l1 ++ l2).lookup k = some v := by
  induction l1 with
  | nil => simp [List.lookup] at h
  | cons hd tl ih =>
    obtain ⟨a, b⟩ := hd
    simp only [List.cons_append, List.lookup] at h ⊢
    cases hka : (k == a) with
    | true => rw [hka] at h; simpa [hka] using h
    | false => rw [hka] at h; simpa [hka] using ih h

theorem lookup_append_none {β : Type} {l1 : List (String × β)} (l2 : List (String × β))
    {k : String} (h : l1.lookup k = none) : (l1 ++ l2).lookup k = l2.lookup k := by
  induction l1 with
  | nil => simp
  | cons hd tl ih =>
    obtain ⟨a, b⟩ := hd
    simp only [List.cons_append, List.lookup] at h ⊢
    cases hka : (k == a) with
    | true => rw [hka] at h; simp at h
    | false => rw [hka] at h; simpa [hka] using ih h

theorem lookup_setKey_same {sch : List (String × Option String)} {k : String}
    (v : Option String) (h : sch.lookup k = none) : (setKey sch k v).lookup k = some v := by
  unfold setKey
  rw [lookup_append_none _ h]
  simp [List.lookup]

theorem lookup_setKey_preserves {sch : List (String × Option String)} {k k' : String}
    {v : Option String} (v' : Option String) (h : sch.lookup k = some v) :
    (setKey sch k' v').lookup k = some v :=
  lookup_append_some h

theorem lookup_setKey_none {sch : List (String × Option String)} {k k' : String}
    (v' : Option String) (h : sch.lookup k = none) (hne : k ≠ k') :
    (setKey sch k' v').lookup k = none := by
  unfold setKey
  rw [lookup_append_none _ h]
  simp only [List.lookup]
  cases hkk : (k == k') with
  | true => exact absurd (eq_of_beq hkk) hne
  | false => rfl

/-! ## Scheme-assembly lemmas (for C5) -/

theorem weaveCommits_preserves {cfg : Config} {env : Env}
    {sch s1 : List (String × Option String)} {k : String} {v : Option String}
    (hw : weaveCommits cfg env sch = .ok s1) (h : sch.lookup k = some v) :
    s1.lookup k = some v := by
  unfold weaveCommits at hw
  split at hw
  · cases hw; exact h
  · cases hg : env.gitcfg.get "hooks.asfgit" "recips" with
    | error e => rw [hg] at hw; cases hw
    | ok w => rw [hg] at hw; cases hw; exact lookup_setKey_preserves _ h

theorem weaveIssues_preserves {env : Env} {sch : List (String × Option String)} {k : String}
    {v : Option String} (h : sch.lookup k = some v) : (weaveIssues env sch).lookup k = some v := by
  unfold weaveIssues
  split
  · exact h
  · exact lookup_setKey_preserves _ h

theorem weavePR_preserves {env : Env} {sch : List (String × Option String)} {k : String}
    {v : Option String} (h : sch.lookup k = some v) : (weavePR env sch).lookup k = some v := by
  unfold weavePR
  split
  · exact h
  · exact lookup_setKey_preserves _ h

theorem weaveDev_preserves {env : Env} {sch : List (String × Option String)} {k : String}
    {v : Option String} (h : sch.lookup k = some v) : (weaveDev env sch).lookup k = some v := by
  unfold weaveDev
  split
  · exact weavePR_preserves (weaveIssues_preserves h)
  · exact h

theorem weaveJira_preserves {env : Env} {sch : List (String × Option String)} {k : String}
    {v : Option String} (h : sch.lookup k = some v) : (weaveJira env sch).lookup k = some v := by
  unfold weaveJira
  split
  · split
    · exact h
    · exact lookup_setKey_preserves _ h
  · exact h

theorem buildScheme_preserves {cfg : Config} {env : Env}
    {m sch : List (String × Option String)} {k : String} {v : Option String}
    (hrl : env.repoLocated = true) (hsf : env.schemeFile = SchemeVal.mapping m)
    (hb : buildScheme cfg env = .ok sch) (h : m.lookup k = some v) :
    sch.lookup k = some v := by
  unfold buildScheme at hb
  rw [hrl, hsf] at hb
  simp only [if_true] at hb
  cases hw : weaveCommits cfg env m with
  | error e => rw [hw] at hb; cases hb
  | ok s1 =>
    rw [hw] at hb
    cases hb
    exact weaveJira_preserves (weaveDev_preserves (weaveCommits_preserves hw h))

theorem hasKeyS_false_iff {sch : List (String × Option String)} {k : String} :
    hasKeyS sch k = false ↔ sch.lookup k = none := by
  unfold hasKeyS
  cases sch.lookup k <;> simp

theorem weaveCommits_skip {cfg : Config} {env : Env} {sch : List (String × Option String)}
    (h : hasKeyS sch "commits" = true) : weaveCommits cfg env sch = .ok sch := by
  unfold weaveCommits
  rw [h]
  simp

theorem gitcfg_get_of_hasOpt {cfg : GitCfg} {sec opt : String}
    (h : cfg.hasOpt sec opt = true) : ∃ v, cfg.get sec opt = .ok v := by
  unfold GitCfg.hasOpt at h
  unfold GitCfg.get
  obtain ⟨v, hv⟩ := Option.isSome_iff_exists.mp h
  rw [hv]
  exact ⟨v, rfl⟩

theorem weaveCommits_none {cfg : Config} {env : Env}
    {sch s1 : List (String × Option String)} {k : String}
    (hw : weaveCommits cfg env sch = .ok s1) (hne : k ≠ "commits")
    (h : sch.lookup k = none) : s1.lookup k = none := by
  unfold weaveCommits at hw
  split at hw
  · cases hw; exact h
  · cases hg : env.gitcfg.get "hooks.asfgit" "recips" with
    | error e => rw [hg] at hw; cases hw
    | ok w => rw [hg] at hw; cases hw; exact lookup_setKey_none _ h hne

theorem weaveCommits_fills {cfg : Config} {env : Env}
    {sch : List (String × Option String)} {v : String}
    (h : sch.lookup "commits" = none) (hg : env.gitcfg.get "hooks.asfgit" "recips" = .ok v) :
    weaveCommits cfg env sch =
      .ok (setKey sch "commits" (some (if v = "" then cfg.default_recipient else v))) := by
  unfold weaveCommits hasKeyS
  rw [h, hg]
  rfl

theorem weaveIssues_none {env : Env} {sch : List (String × Option String)} {k : String}
    (hne : k ≠ "issues") (h : sch.lookup k = none) : (weaveIssues env sch).lookup k = none := by
  unfold weaveIssues
  split
  · exact h
  · exact lookup_setKey_none _ h hne

theorem weaveIssues_fills {env : Env} {sch : List (String × Option String)}
    (h : sch.lookup "issues" = none) :
    (weaveIssues env sch).lookup "issues" = some (some (apacheDev env)) := by
  unfold weaveIssues hasKeyS
  rw [h]
  exact lookup_setKey_same _ h

theorem weavePR_none {env : Env} {sch : List (String × Option String)} {k : String}
    (hne : k ≠ "pullrequests") (h : sch.lookup k = none) : (weavePR env sch).lookup k = none := by
  unfold weavePR
  split
  · exact h
  · exact lookup_setKey_none _ h hne

theorem weavePR_fills {env : Env} {sch : List (String × Option String)}
    (h : sch.lookup "pullrequests" = none) :
    (weavePR env sch).lookup "pullrequests" = some (some (apacheDev env)) := by
  unfold weavePR hasKeyS
  rw [h]
  exact lookup_setKey_same _ h

theorem weaveDev_none {env : Env} {sch : List (String × Option String)} {k : String}
    (hni : k ≠ "issues") (hnp : k ≠ "pullrequests") (h : sch.lookup k = none) :
    (weaveDev env sch).lookup k = none := by
  unfold weaveDev
  split
  · exact weavePR_none hnp (weaveIssues_none hni h)
  · exact h

theorem weaveDev_fills_issues {env : Env} {sch : List (String × Option String)}
    (hopt : env.gitcfg.hasOpt "apache" "dev" = true) (h : sch.lookup "issues" = none) :
    (weaveDev env sch).lookup "issues" = some (some (apacheDev env)) := by
  unfold weaveDev
  rw [hopt]
  simp only [if_true]
  exact weavePR_preserves (weaveIssues_fills h)

theorem weaveDev_fills_pr {env : Env} {sch : List (String × Option String)}
    (hopt : env.gitcfg.hasOpt "apache" "dev" = true) (h : sch.lookup "pullrequests" = none) :
    (weaveDev env sch).lookup "pullrequests" = some (some (apacheDev env)) := by
  unfold weaveDev
  rw [hopt]
  simp only [if_true]
  exact weavePR_fills (weaveIssues_none (by decide) h)

theorem weaveJira_fills {env : Env} {sch : List (String × Option String)}
    (hopt : env.gitcfg.hasOpt "apache" "jira" = true) (h : sch.lookup "jira_options" = none) :
    (weaveJira env sch).lookup "jira_options" = some (some (apacheJira env)) := by
  unfold weaveJira hasKeyS
  rw [hopt, h]
  simp only [if_true, Option.isSome_none, Bool.false_eq_true, if_false]
  exact lookup_setKey_same _ h

/-- From a successful `buildScheme` on a mapping settings file, recover
the intermediate woven scheme. -/
theorem buildScheme_ok_elim {cfg : Config} {env : Env}
    {m sch : List (String × Option String)}
    (hrl : env.repoLocated = true) (hsf : env.schemeFile = SchemeVal.mapping m)
    (hb : buildScheme cfg env = .ok sch) :
    ∃ s1, weaveCommits cfg env m = .ok s1 ∧ sch = weaveJira env (weaveDev env s1) := by
  unfold buildScheme at hb
  rw [hrl, hsf] at hb
  simp only [if_true] at hb
  cases hw : weaveCommits cfg env m with
  | error e => rw [hw] at hb; cases hb
  | ok s1 => rw [hw] at hb; cases hb; exact ⟨s1, rfl, rfl⟩

/-! ## Claim C5 -/

/-- C5: for each of the logical routing keys `commits`, `issues`,
`pullrequests`, `jira_options`, a value set by the per-repository
settings file survives into the assembled routing scheme unchanged
(the legacy weave never overwrites it), and the legacy per-repo config
value is woven in only when the settings file did not set the key. -/
theorem C5_settings_file_precedence (cfg : Config) (env : Env)
    (m sch : List (String × Option String))
    (hrl : env.repoLocated = true) (hsf : env.schemeFile = SchemeVal.mapping m)
    (hb : buildScheme cfg env = .ok sch) :
    (∀ k v, (k = "commits" ∨ k = "issues" ∨ k = "pullrequests" ∨ k = "jira_options") →
      m.lookup k = some v → sch.lookup k = some v) ∧
    (∀ v, m.lookup "commits" = none → env.gitcfg.get "hooks.asfgit" "recips" = .ok v →
      sch.lookup "commits" = some (some (if v = "" then cfg.default_recipient else v))) ∧
    (m.lookup "issues" = none → env.gitcfg.hasOpt "apache" "dev" = true →
      sch.lookup "issues" = some (some (apacheDev env))) ∧
    (m.lookup "pullrequests" = none → env.gitcfg.hasOpt "apache" "dev" = true →
      sch.lookup "pullrequests" = some (some (apacheDev env))) ∧
    (m.lookup "jira_options" = none → env.gitcfg.hasOpt "apache" "jira" = true →
      sch.lookup "jira_options" = some (some (apacheJira env))) := by
  obtain ⟨s1, hw, hs⟩ := buildScheme_ok_elim hrl hsf hb
  subst hs
  refine ⟨?_, ?_, ?_, ?_, ?_⟩
  · intro k v _ hm
    exact weaveJira_preserves (weaveDev_preserves (weaveCommits_preserves hw hm))
  · intro v hnone hg
    rw [weaveCommits_fills hnone hg] at hw
    cases hw
    exact weaveJira_preserves (weaveDev_preserves (lookup_setKey_same _ hnone))
  · intro hnone hopt
    exact weaveJira_preserves
      (weaveDev_fills_issues hopt (weaveCommits_none hw (by decide) hnone))
  · intro hnone hopt
    exact weaveJira_preserves
      (weaveDev_fills_pr hopt (weaveCommits_none hw (by decide) hnone))
  · intro hnone hopt
    exact weaveJira_fills hopt
      (weaveDev_none (by decide) (by decide) (weaveCommits_none hw (by decide) hnone))

/-- Fixture scheme mapping for the C5 witness: the settings file sets
`issues`; the legacy config holds `hooks.asfgit/recips`, `apache/dev`
and `apache/jira`. -/
def mW : List (String × Option String) := [("issues", some "set@x.org")]

def cfgW : Config := ⟨[], none, none, "default@apache.org", "link label"⟩

def envW : Env :=
  ⟨true, SchemeVal.mapping mW,
   ⟨[(("hooks.asfgit", "recips"), "c@x.org"), (("apache", "dev"), "d@x.org"),
     (("apache", "jira"), "worklog")]⟩, none, GhSettings.missing⟩

def schW : List (String × Option String) :=
  [("issues", some "set@x.org"), ("commits", some "c@x.org"),
   ("pullrequests", some "d@x.org"), ("jira_options", some "worklog")]

theorem C5_settings_file_precedence_witness :
    buildScheme cfgW envW = .ok schW ∧
    schW.lookup "issues" = some (some "set@x.org") ∧
    schW.lookup "pullrequests" = some (some (apacheDev envW)) :=
  have hb : buildScheme cfgW envW = .ok schW := by decide
  ⟨hb,
   (C5_settings_file_precedence cfgW envW mW schW rfl rfl hb).1 "issues" (some "set@x.org")
     (Or.inr (Or.inl rfl)) (by decide),
   (C5_settings_file_precedence cfgW envW mW schW rfl rfl hb).2.2.2.1 (by decide) (by decide)⟩

/-! ## Resolution lemmas -/

/-- Once the scheme assembly has succeeded, every branch of
`get_recipient` returns a value: resolution completes. -/
theorem get_recipient_total {cfg : Config} {env : Env}
    {sch : List (String × Option String)} (repo itype action : String)
    (userid : Option String) (hb : buildScheme cfg env = .ok sch) :
    ∃ r, get_recipient cfg env repo itype action userid = .ok r := by
  unfold get_recipient
  rw [hb]
  dsimp only
  split
  · exact ⟨_, rfl⟩
  · split
    · exact ⟨_, rfl⟩
    · exact ⟨_, rfl⟩

/-- A successful resolution presupposes a successful scheme assembly. -/
theorem buildScheme_ok_of_recipient {cfg : Config} {env : Env}
    {repo itype action : String} {userid : Option String} {r : Option String}
    (h : get_recipient cfg env repo itype action userid = .ok r) :
    ∃ sch, buildScheme cfg env = .ok sch := by
  unfold get_recipient at h
  cases hb : buildScheme cfg env with
  | error e => rw [hb] at h; exact Except.noConfusion h
  | ok sch => exact ⟨sch, rfl⟩

/-- With no repository path located on disk, the scheme is empty and
every non-jira resolution lands on the `dev@<project>` fallback. -/
theorem get_recipient_no_repo {cfg : Config} {env : Env}
    (repo itype action : String) (userid : Option String)
    (hrl : env.repoLocated = false) (hj : itype ≠ "jira") :
    get_recipient cfg env repo itype action userid =
      .ok (some ("dev@" ++ projectOf repo ++ ".apache.org")) := by
  unfold get_recipient buildScheme
  rw [hrl]
  simp [hj]

/-- The candidate key list only depends on the action through its event
category. -/
theorem ruleOrder_congr {a1 a2 : String} (bl : Option (List String)) (itype u : String)
    (hc : eventCategoryOf a1 = eventCategoryOf a2) :
    ruleOrder bl itype a1 u = ruleOrder bl itype a2 u := by
  unfold ruleOrder
  rw [hc]

/-- Resolution only depends on the action through its event category. -/
theorem get_recipient_action_congr {cfg : Config} {env : Env} {a1 a2 : String}
    (repo itype : String) (userid : Option String)
    (hc : eventCategoryOf a1 = eventCategoryOf a2) :
    get_recipient cfg env repo itype a1 userid = get_recipient cfg env repo itype a2 userid := by
  have h : ∀ u, ruleOrder env.botLines itype a1 u = ruleOrder env.botLines itype a2 u :=
    fun u => ruleOrder_congr env.botLines itype u hc
  unfold get_recipient
  rw [h]

/-- For a non-commit, non-jira resolution with a truthy actor and a
non-empty scheme, the result is exactly the first candidate rule hit,
with the `dev@<project>` fallback when no candidate hits. -/
theorem get_recipient_rules {cfg : Config} {env : Env}
    {sch : List (String × Option String)} (repo itype action : String)
    (userid : Option String)
    (hb : buildScheme cfg env = .ok sch) (hne : sch ≠ [])
    (hcommit : itype ≠ "commit") (hjira : itype ≠ "jira") (hu : truthy userid = true) :
    get_recipient cfg env repo itype action userid =
      .ok (some (match firstHit sch (ruleOrder env.botLines itype action (pyStr userid)) with
        | some v => v
        | none => "dev@" ++ projectOf repo ++ ".apache.org")) := by
  unfold get_recipient
  rw [hb]
  dsimp only
  rw [if_pos hne, if_pos ⟨⟨hcommit, hjira⟩, hu⟩]
  cases hf : firstHit sch (ruleOrder env.botLines itype action (pyStr userid)) with
  | some v => rfl
  | none => simp [hjira]

/-! ## Dispatch lemmas -/

/-- An undropped dispatch is the core effect plus the collation-table
update. -/
theorem handle_event_of_core {cfg : Config} {env : Env} {now : Int} {uuid : String}
    {st : List (String × DiffComments)} {p : Payload} {ms : List Mail} {js : List JiraCall}
    (hdrop : droppedByFilters cfg p.repo = false)
    (hc : handle_core cfg env uuid p = .ok (ms, js)) :
    handle_event cfg env now uuid st p = .ok ⟨eventState now st p, ms, js, []⟩ := by
  unfold handle_event
  rw [hdrop, hc]
  simp

/-- A dispatch that completes without an exception leaves the
collation table unchanged unless its action is `diffcomment`. -/
theorem handle_event_state_of_ok {cfg : Config} {env : Env} {now : Int} {uuid : String}
    {st : List (String × DiffComments)} {p : Payload} {out : DispatchOut}
    (h : handle_event cfg env now uuid st p = .ok out)
    (hact : p.action ≠ some "diffcomment") : out.state = st := by
  unfold handle_event at h
  split at h
  · cases h; rfl
  · cases hc : handle_core cfg env uuid p with
    | error e => rw [hc] at h; exact Except.noConfusion h
    | ok pr =>
      obtain ⟨ms, js⟩ := pr
      rw [hc] at h
      cases h
      simp [eventState, hact]

/-- A dispatch that completes without an exception emits no re-dispatch
of its own. -/
theorem handle_event_dispatched_of_ok {cfg : Config} {env : Env} {now : Int} {uuid : String}
    {st : List (String × DiffComments)} {p : Payload} {out : DispatchOut}
    (h : handle_event cfg env now uuid st p = .ok out) : out.dispatched = [] := by
  unfold handle_event at h
  split at h
  · cases h; rfl
  · cases hc : handle_core cfg env uuid p with
    | error e => rw [hc] at h; exact Except.noConfusion h
    | ok pr =>
      obtain ⟨ms, js⟩ := pr
      rw [hc] at h
      cases h
      rfl

/-- With no registered template for the event's key, the core produces
no mail call and no tracker call (and does not raise, provided routing
produced a usable address). -/
theorem handle_core_no_template {cfg : Config} {env : Env} {uuid : String} {p : Payload}
    {a repo ml : String}
    (ha : p.action = some a) (hr : p.repo = some repo)
    (hml : get_recipient cfg env repo (p.typ.getD "pullrequest") a p.user = .ok (some ml))
    (hat : ml.data.contains '@' = true)
    (htm : cfg.templates.lookup (a ++ "_" ++ categoryOf p) = none) :
    handle_core cfg env uuid p = .ok ([], []) := by
  unfold handle_core
  rw [ha]
  dsimp only
  rw [hr]
  dsimp only
  rw [hml]
  dsimp only
  rw [hat]
  simp only [not_true, if_false, reduceIte]
  rw [htm]

/-- Whenever the per-repository github-settings yaml is not in one of
its two *uncaught* failure states, the custom-subject read returns. -/
theorem get_custom_subject_ok {env : Env} (action : String)
    (hgs1 : env.ghsettings ≠ GhSettings.scanFail)
    (hgs2 : env.ghsettings ≠ GhSettings.nonDict) :
    ∃ cso, get_custom_subject env action = .ok cso := by
  unfold get_custom_subject
  cases hg : env.ghsettings with
  | missing => exact ⟨none, rfl⟩
  | parseFail => exact ⟨none, rfl⟩
  | scanFail => exact absurd hg hgs1
  | nonDict => exact absurd hg hgs2
  | loaded cs =>
    cases cs with
    | none => exact ⟨none, rfl⟩
    | some l =>
      dsimp only
      split
      · split
        · exact ⟨_, rfl⟩
        · exact ⟨_, rfl⟩
      · exact ⟨none, rfl⟩

/-- Whenever routing yields a usable address and the custom-subject
read does not raise, the core completes without an exception (whatever
the template and render outcomes). -/
theorem handle_core_ok {cfg : Config} {env : Env} {uuid : String} {p : Payload}
    {a repo ml : String}
    (ha : p.action = some a) (hr : p.repo = some repo)
    (hml : get_recipient cfg env repo (p.typ.getD "pullrequest") a p.user = .ok (some ml))
    (hat : ml.data.contains '@' = true)
    (hgc : ∃ cso, get_custom_subject env (a ++ "_" ++ categoryOf p) = .ok cso) :
    ∃ ms js, handle_core cfg env uuid p = .ok (ms, js) := by
  obtain ⟨sch, hb⟩ := buildScheme_ok_of_recipient hml
  obtain ⟨jop, hj⟩ := get_recipient_total repo "jira" "comment" none hb
  obtain ⟨cso, hcso⟩ := hgc
  unfold handle_core
  rw [ha]
  dsimp only
  rw [hr]
  dsimp only
  rw [hml]
  dsimp only
  rw [hat]
  simp only [not_true, if_false, reduceIte]
  cases htm : cfg.templates.lookup (a ++ "_" ++ categoryOf p) with
  | none => exact ⟨[], [], rfl⟩
  | some tpl =>
    obtain ⟨sT, bT⟩ := tpl
    dsimp only
    rw [hcso]
    dsimp only
    split
    · exact ⟨[], [], rfl⟩
    · split
      · exact ⟨[], [], rfl⟩
      · rw [hj]
        exact ⟨_, _, rfl⟩

/-! ## Flush lemmas -/

/-- The collated payload's action is never `diffcomment`, so a collated
re-dispatch cannot itself write into the collation table. -/
theorem collatedPayload_action_ne (dc : DiffComments) :
    (collatedPayload dc).action ≠ some "diffcomment" := by
  simp [collatedPayload]

/-- The age test of the flush loop, as its own predicate. -/
def isExpired (now : Int) (e : String × DiffComments) : Bool :=
  decide (e.2.created < now - DEFAULT_DIFF_WAIT)

/-- A successful pass of the flush loop re-dispatches exactly the
expired batches (in table order), records exactly their keys for
removal, and leaves the table value it threads through unchanged. -/
theorem flushIter_spec {cfg : Config} {env : Env} {now : Int} {uuid : String} :
    ∀ (items cur : List (String × DiffComments)) rem fin ms js ds,
    flushIter cfg env now uuid items cur = .ok (rem, fin, ms, js, ds) →
    fin = cur ∧ rem = (items.filter (isExpired now)).map Prod.fst ∧
      ds = (items.filter (isExpired now)).map (fun e => collatedPayload e.2) := by
  intro items
  induction items with
  | nil =>
    intro cur rem fin ms js ds h
    unfold flushIter at h
    cases h
    exact ⟨rfl, rfl, rfl⟩
  | cons hd tl ih =>
    obtain ⟨uid, dc⟩ := hd
    intro cur rem fin ms js ds h
    unfold flushIter at h
    split at h
    next hlt =>
      cases hev : handle_event cfg env now uuid cur (collatedPayload dc) with
      | error e => rw [hev] at h; exact Except.noConfusion h
      | ok out =>
        rw [hev] at h
        dsimp only at h
        cases hit : flushIter cfg env now uuid tl out.state with
        | error e => rw [hit] at h; exact Except.noConfusion h
        | ok tup =>
          obtain ⟨rem', fin', ms', js', ds'⟩ := tup
          rw [hit] at h
          have hstate : out.state = cur :=
            handle_event_state_of_ok hev (collatedPayload_action_ne dc)
          obtain ⟨hfin, hrem, hds⟩ := ih out.state rem' fin' ms' js' ds' hit
          cases h
          have hexp : isExpired now (uid, dc) = true := by
            simpa [isExpired] using hlt
          refine ⟨hfin.trans hstate, ?_, ?_⟩
          · simp [List.filter_cons, hexp, hrem]
          · simp [List.filter_cons, hexp, hds]
    next hge =>
      have hexp : isExpired now (uid, dc) = false := by
        simpa [isExpired] using hge
      obtain ⟨hfin, hrem, hds⟩ := ih cur rem fin ms js ds h
      exact ⟨hfin, by simp [List.filter_cons, hexp, hrem], by simp [List.filter_cons, hexp, hds]⟩

/-- On a table whose keys are distinct (as Python dict keys are),
removing exactly the recorded expired keys keeps exactly the unexpired
entries. -/
theorem filter_remove_expired {now : Int} {st : List (String × DiffComments)}
    (hnd : (st.map Prod.fst).Nodup) :
    st.filter (fun e => ! ((st.filter (isExpired now)).map Prod.fst).contains e.1) =
      st.filter (fun e => ! isExpired now e) := by
  apply List.filter_congr
  intro e he
  have hiff : (((st.filter (isExpired now)).map Prod.fst).contains e.1 = true) ↔
      isExpired now e = true := by
    constructor
    · intro hc
      have hmem : e.1 ∈ (st.filter (isExpired now)).map Prod.fst := by
        simpa using hc
      obtain ⟨e', he', hfst⟩ := List.mem_map.mp hmem
      have he'f := List.mem_filter.mp he'
      have heq : e' = e := List.inj_on_of_nodup_map hnd he'f.1 he hfst
      rw [← heq]
      exact he'f.2
    · intro hexp
      have hmem : e.1 ∈ (st.filter (isExpired now)).map Prod.fst :=
        List.mem_map.mpr ⟨e, List.mem_filter.mpr ⟨he, hexp⟩, rfl⟩
      simpa using hmem
  cases hexp : isExpired now e with
  | true => rw [hiff.mpr hexp]
  | false =>
    have hc : ((st.filter (isExpired now)).map Prod.fst).contains e.1 = false := by
      cases hcc : ((st.filter (isExpired now)).map Prod.fst).contains e.1 with
      | false => rfl
      | true => rw [hiff.mp hcc] at hexp; exact Bool.noConfusion hexp
    rw [hc]

/-- A completed flush re-dispatches exactly the collated payloads of the
expired batches (in table order) and its resulting table holds exactly
the unexpired entries, unchanged. -/
theorem flush_spec {cfg : Config} {env : Env} {now : Int} {uuid : String}
    {st : List (String × DiffComments)} {fout : DispatchOut}
    (hnd : (st.map Prod.fst).Nodup)
    (h : flush cfg env now uuid st = .ok fout) :
    fout.dispatched = (st.filter (isExpired now)).map (fun e => collatedPayload e.2) ∧
    fout.state = st.filter (fun e => ! isExpired now e) := by
  unfold flush at h
  cases hit : flushIter cfg env now uuid st st with
  | error e => rw [hit] at h; exact Except.noConfusion h
  | ok tup =>
    obtain ⟨rem, fin, ms, js, ds⟩ := tup
    rw [hit] at h
    obtain ⟨hfin, hrem, hds⟩ := flushIter_spec st st rem fin ms js ds hit
    cases h
    refine ⟨hds, ?_⟩
    show fin.filter (fun e => ! rem.contains e.1) = _
    rw [hfin, hrem]
    exact filter_remove_expired hnd

/-! ## Shared concrete fixtures -/

/-- An environment in which the repository is not located on disk, no
robots file exists, and no github-settings yaml exists. -/
def cleanEnv : Env := ⟨false, SchemeVal.absent, ⟨[]⟩, none, GhSettings.missing⟩

/-- A configuration with no templates and no allow/deny lists. -/
def emptyCfg : Config := ⟨[], none, none, "dr@apache.org", ""⟩

/-! ## Claim C9 -/

/-- C9 amended: for every call to Flush that completes without an
exception, every pending batch older than the 10-second quiet period
(`DEFAULT_DIFF_WAIT`) is re-dispatched exactly once -- the dispatched
list is exactly one collated payload per expired batch, in table order
-- and removed from the pending table, while every batch not older than
the quiet period remains in the table unchanged.  (A flush aborted by a
raising re-dispatch removes nothing: see the counterexample.) -/
theorem C9_flush_expired_batches (cfg : Config) (env : Env) (now : Int) (uuid : String)
    (st : List (String × DiffComments)) (fout : DispatchOut)
    (hnd : (st.map Prod.fst).Nodup)
    (h : flush cfg env now uuid st = .ok fout) :
    fout.dispatched = (st.filter (isExpired now)).map (fun e => collatedPayload e.2) ∧
    fout.state = st.filter (fun e => ! isExpired now e) :=
  flush_spec hnd h

/-- Payload fixture for the flush witness. -/
def pF : Payload :=
  ⟨some "alice", some "diffcomment", some "r", some "pullrequest", some "N",
   "t", "x1", "1", "", "f1", "d1", ChangesVal.absent⟩

def dcOldF : DiffComments := ⟨0, ["B1"], pF⟩

def dcYF : DiffComments := ⟨15, ["B2"], pF⟩

def stF : List (String × DiffComments) := [("a", dcOldF), ("b", dcYF)]

def foutF : DispatchOut := ⟨[("b", dcYF)], [], [], [collatedPayload dcOldF]⟩

theorem C9_flush_expired_batches_witness :
    flush emptyCfg cleanEnv 20 "U" stF = .ok foutF ∧
    foutF.dispatched = [collatedPayload dcOldF] ∧ foutF.state = [("b", dcYF)] :=
  have h : flush emptyCfg cleanEnv 20 "U" stF = .ok foutF := by decide
  ⟨h,
   ((C9_flush_expired_batches emptyCfg cleanEnv 20 "U" stF foutF (by decide) h).1).trans
     (by decide),
   ((C9_flush_expired_batches emptyCfg cleanEnv 20 "U" stF foutF (by decide) h).2).trans
     (by decide)⟩

/-! ## Claim C4 -/

/-- C4 counterexample: for the repository id `"-x"` (no settings file,
no legacy config), stripping the `incubator-` prefix and truncating at
the first hyphen yields the empty project token, but the code resolves
to `dev@infra.apache.org` (the regex has no match, so the `"infra"`
fallback fires), not `dev@.apache.org`. -/
theorem C4_default_address_counterexample :
    get_recipient emptyCfg cleanEnv "-x" "pullrequest" "comment" (some "alice") =
      .ok (some "dev@infra.apache.org") ∧
    claimProject "-x" = "" ∧
    (some "dev@infra.apache.org" : Option String) ≠
      some ("dev@" ++ claimProject "-x" ++ ".apache.org") := by decide

/-- When the strip-and-truncate project token is non-empty, it agrees
with the regex match the code performs. -/
theorem projectOf_eq_claimProject {repository : String} (h : claimProject repository ≠ "") :
    projectOf repository = claimProject repository := by
  unfold claimProject at h
  unfold projectOf claimProject
  cases hs : strStarts repository "incubator-" with
  | true =>
    rw [hs, if_pos rfl] at h
    rw [if_pos rfl, if_pos ⟨rfl, h⟩]
  | false =>
    have hfalse : ¬ (false = true) := Bool.noConfusion
    rw [hs, if_neg hfalse] at h
    rw [if_neg hfalse, if_neg (fun hc => hfalse hc.1), if_pos h]

/-- C4 amended: for every repository id with no on-disk configuration,
every non-jira resolution returns `dev@<project>.apache.org` where
`<project>` is the id with an `incubator-` prefix stripped and truncated
at the first hyphen, *provided* that token is non-empty (the prefix is
only treated as stripped when a non-empty token follows it; ids with no
leading non-hyphen run fall back to `infra`). -/
theorem C4_default_address_amended (cfg : Config) (env : Env)
    (repository itype action : String) (userid : Option String)
    (hrl : env.repoLocated = false) (hj : itype ≠ "jira")
    (hcp : claimProject repository ≠ "") :
    get_recipient cfg env repository itype action userid =
      .ok (some ("dev@" ++ claimProject repository ++ ".apache.org")) := by
  rw [get_recipient_no_repo repository itype action userid hrl hj,
    projectOf_eq_claimProject hcp]

theorem C4_default_address_amended_witness :
    claimProject "incubator-foo-bar" ≠ "" ∧
    get_recipient emptyCfg cleanEnv "incubator-foo-bar" "pullrequest" "comment" (some "alice") =
      .ok (some "dev@foo.apache.org") :=
  ⟨by decide,
   (C4_default_address_amended emptyCfg cleanEnv "incubator-foo-bar" "pullrequest" "comment"
     (some "alice") rfl (by decide) (by decide)).trans (by decide)⟩

/-! ## Claim C3 -/

/-- Environment fixture: repository located, settings file missing, and
a legacy config with no `hooks.asfgit` section at all. -/
def envC3 : Env := ⟨true, SchemeVal.absent, ⟨[]⟩, none, GhSettings.missing⟩

/-- Environment fixture: repository located, settings file parsing to a
non-mapping yaml value (e.g. `null` or a list). -/
def envC3n : Env := ⟨true, SchemeVal.nonMapping, ⟨[(("hooks.asfgit", "recips"), "x@y.org")]⟩,
  none, GhSettings.missing⟩

/-- C3 counterexample: a missing legacy `hooks.asfgit/recips` entry
(with no `commits` key in the settings layer) aborts resolution with a
raised `NoSectionError` instead of degrading that layer; likewise a
settings file that parses to a non-mapping aborts with `TypeError`. -/
theorem C3_degrade_counterexample :
    get_recipient emptyCfg envC3 "myrepo" "pullrequest" "comment" (some "alice") =
      .error "NoSectionError" ∧
    get_recipient emptyCfg envC3n "myrepo" "pullrequest" "comment" (some "alice") =
      .error "TypeError" := by decide

/-- Environment fixture: repository located, settings file missing, but
the legacy `hooks.asfgit/recips` entry present. -/
def envC3ok : Env := ⟨true, SchemeVal.absent, ⟨[(("hooks.asfgit", "recips"), "c@x.org")]⟩,
  none, GhSettings.missing⟩

/-- C3 amended: an *unparsable* settings file degrades that layer to
absent (resolution behaves exactly as with a missing file), and
resolution completes with a result whenever the `commits` layer is
readable -- i.e. the settings yaml is a mapping (or absent/unparsable)
and either it defines `commits` or the legacy `hooks.asfgit/recips`
entry exists.  (When the settings file lacks `commits`, parses to a
non-mapping, or the legacy entry is missing, resolution can instead
abort, per the counterexample.) -/
theorem C3_config_failures_degrade :
    (∀ (cfg : Config) (env : Env) (r i a : String) (u : Option String),
      get_recipient cfg { env with schemeFile := SchemeVal.parseFail } r i a u =
        get_recipient cfg { env with schemeFile := SchemeVal.absent } r i a u) ∧
    (∀ (cfg : Config) (env : Env) (r i a : String) (u : Option String),
      (env.repoLocated = true →
        env.schemeFile ≠ SchemeVal.nonMapping ∧
        ((match env.schemeFile with
          | SchemeVal.mapping m => hasKeyS m "commits"
          | _ => false) = true ∨ env.gitcfg.hasOpt "hooks.asfgit" "recips" = true)) →
      ∃ res, get_recipient cfg env r i a u = .ok res) := by
  constructor
  · intro cfg env r i a u
    rfl
  · intro cfg env r i a u hok
    have hb : ∃ sch, buildScheme cfg env = .ok sch := by
      unfold buildScheme
      cases hrl : env.repoLocated with
      | false => exact ⟨[], by simp⟩
      | true =>
        obtain ⟨hnm, hcom⟩ := hok hrl
        simp only [if_true]
        cases hsf : env.schemeFile with
        | nonMapping => exact absurd hsf hnm
        | mapping m =>
          rw [hsf] at hcom
          dsimp only at hcom ⊢
          cases hcm : hasKeyS m "commits" with
          | true =>
            rw [weaveCommits_skip hcm]
            exact ⟨_, rfl⟩
          | false =>
            have hopt : env.gitcfg.hasOpt "hooks.asfgit" "recips" = true := by
              rcases hcom with hcom | hcom
              · rw [hcm] at hcom; exact Bool.noConfusion hcom
              · exact hcom
            obtain ⟨v, hv⟩ := gitcfg_get_of_hasOpt hopt
            rw [weaveCommits_fills (hasKeyS_false_iff.mp hcm) hv]
            exact ⟨_, rfl⟩
        | absent =>
          rw [hsf] at hcom
          dsimp only at hcom ⊢
          have hopt : env.gitcfg.hasOpt "hooks.asfgit" "recips" = true := by
            rcases hcom with hcom | hcom
            · exact Bool.noConfusion hcom
            · exact hcom
          obtain ⟨v, hv⟩ := gitcfg_get_of_hasOpt hopt
          rw [weaveCommits_fills (by simp [List.lookup]) hv]
          exact ⟨_, rfl⟩
        | parseFail =>
          rw [hsf] at hcom
          dsimp only at hcom ⊢
          have hopt : env.gitcfg.hasOpt "hooks.asfgit" "recips" = true := by
            rcases hcom with hcom | hcom
            · exact Bool.noConfusion hcom
            · exact hcom
          obtain ⟨v, hv⟩ := gitcfg_get_of_hasOpt hopt
          rw [weaveCommits_fills (by simp [List.lookup]) hv]
          exact ⟨_, rfl⟩
    obtain ⟨sch, hb⟩ := hb
    exact get_recipient_total r i a u hb

theorem C3_config_failures_degrade_witness :
    (get_recipient emptyCfg { envC3ok with schemeFile := SchemeVal.parseFail }
        "foo" "pullrequest" "comment" (some "alice") =
      get_recipient emptyCfg { envC3ok with schemeFile := SchemeVal.absent }
        "foo" "pullrequest" "comment" (some "alice")) ∧
    (∃ res, get_recipient emptyCfg envC3ok "foo" "pullrequest" "comment" (some "alice") =
      .ok res) :=
  ⟨C3_config_failures_degrade.1 emptyCfg envC3ok "foo" "pullrequest" "comment" (some "alice"),
   C3_config_failures_degrade.2 emptyCfg envC3ok "foo" "pullrequest" "comment" (some "alice")
     (fun _ => by decide)⟩

/-! ## Claim C2 -/

/-- Environment fixture: settings file routes pull requests to a string
with no `"@"`. -/
def envC2 : Env := ⟨true, SchemeVal.mapping [("pullrequests", some "notanemail")],
  ⟨[(("hooks.asfgit", "recips"), "x@y.org")]⟩, none, GhSettings.missing⟩

/-- Payload fixture: a human pull-request comment. -/
def pC2 : Payload := ⟨some "alice", some "created", some "foo", some "pullrequest",
  some "N", "t", "x", "1", "", "", "", ChangesVal.absent⟩

/-- Template fixture for the ghsettings conjuncts of the C2
counterexample: a `created_pr` template is registered, so the dispatch
reaches the custom-subject read at line 274. -/
def cfgC2g : Config :=
  ⟨[("created_pr", ([Tok.lit "s"], [Tok.lit "b"]))], none, none, "dr@apache.org", ""⟩

/-- Environment fixture: the ghsettings yaml hits a yaml error other
than the one caught `ParserError`. -/
def envC2s : Env := ⟨false, SchemeVal.absent, ⟨[]⟩, none, GhSettings.scanFail⟩

/-- Environment fixture: the ghsettings yaml parses to a non-dict
(empty file, list or scalar). -/
def envC2n : Env := ⟨false, SchemeVal.absent, ⟨[]⟩, none, GhSettings.nonDict⟩

/-- C2 counterexample: exceptions escape the dispatch pipeline --
a resolved address without `"@"` makes the `ml.split("@", 1)` unpacking
raise `ValueError`; a settings file parsing to a non-mapping raises
`TypeError`; and even with `action`/`repo` present and an `"@"` address,
the custom-subject read for a templated event raises when the
ghsettings yaml hits an uncaught yaml error (line 119 catches only
`ParserError`) or loads to a non-dict (`AttributeError` at line 121). -/
theorem C2_no_exception_counterexample :
    handle_event emptyCfg envC2 0 "U" [] pC2 =
      .error "ValueError: not enough values to unpack" ∧
    handle_event emptyCfg envC3n 0 "U" [] pC2 = .error "TypeError" ∧
    handle_event cfgC2g envC2s 0 "U" [] pC2 = .error "yaml.scanner.ScannerError" ∧
    handle_event cfgC2g envC2n 0 "U" [] pC2 =
      .error "AttributeError: no attribute get" := by decide

/-- C2 amended: processing a single event raises no exception *provided*
the payload carries `action` and `repo` fields, recipient resolution
returns an address containing `"@"`, and the per-repository
github-settings yaml is not in one of its two uncaught failure states
(a yaml error other than the caught `ParserError`, or a load to a
non-dict); without those provisos the dispatch can raise (see the
counterexample). -/
theorem C2_no_exception_amended (cfg : Config) (env : Env) (now : Int) (uuid : String)
    (st : List (String × DiffComments)) (p : Payload) (a repo ml : String)
    (ha : p.action = some a) (hr : p.repo = some repo)
    (hml : get_recipient cfg env repo (p.typ.getD "pullrequest") a p.user = .ok (some ml))
    (hat : ml.data.contains '@' = true)
    (hgs1 : env.ghsettings ≠ GhSettings.scanFail)
    (hgs2 : env.ghsettings ≠ GhSettings.nonDict) :
    ∃ out, handle_event cfg env now uuid st p = .ok out := by
  cases hd : droppedByFilters cfg p.repo with
  | true =>
    refine ⟨⟨st, [], [], []⟩, ?_⟩
    unfold handle_event
    rw [hd]
    simp
  | false =>
    obtain ⟨ms, js, hc⟩ :=
      handle_core_ok ha hr hml hat (get_custom_subject_ok (a ++ "_" ++ categoryOf p) hgs1 hgs2)
    exact ⟨_, handle_event_of_core hd hc⟩

theorem C2_no_exception_amended_witness :
    ∃ out, handle_event emptyCfg cleanEnv 0 "U" [] pC2 = .ok out :=
  C2_no_exception_amended emptyCfg cleanEnv 0 "U" [] pC2 "created" "foo"
    "dev@foo.apache.org" rfl rfl (by decide) (by decide) (by decide) (by decide)

/-! ## Claim C8 -/

/-- Environment fixture for C8: bad address *and* no template. -/
def envC8 : Env := ⟨true, SchemeVal.mapping [("pullrequests", some "badaddr")],
  ⟨[(("hooks.asfgit", "recips"), "x@y.org")]⟩, none, GhSettings.missing⟩

/-- Payload fixture for C8. -/
def pC8 : Payload := ⟨some "bob", some "edited", some "bar", some "pullrequest",
  some "M", "t", "x", "2", "", "", "", ChangesVal.absent⟩

/-- C8 counterexample: even though no template is registered for the
event (the config has none at all), the dispatch still raises -- the
recipient split at line 267 runs *before* the template gate at line 268,
so an exception can escape for a missing-template event. -/
theorem C8_missing_template_counterexample :
    emptyCfg.templates.lookup "edited_pr" = none ∧
    handle_event emptyCfg envC8 0 "U" [] pC8 =
      .error "ValueError: not enough values to unpack" := by decide

/-- C8 amended: for an event whose template key is not registered, no
mail call and no issue-tracker call is made and no exception escapes,
*provided* recipient resolution yields an address containing `"@"`
(exceptions from the earlier routing step remain possible, per the
counterexample). -/
theorem C8_missing_template_amended (cfg : Config) (env : Env) (now : Int) (uuid : String)
    (st : List (String × DiffComments)) (p : Payload) (a repo ml : String)
    (hdrop : droppedByFilters cfg p.repo = false)
    (ha : p.action = some a) (hr : p.repo = some repo)
    (hml : get_recipient cfg env repo (p.typ.getD "pullrequest") a p.user = .ok (some ml))
    (hat : ml.data.contains '@' = true)
    (htm : cfg.templates.lookup (a ++ "_" ++ categoryOf p) = none) :
    handle_event cfg env now uuid st p = .ok ⟨eventState now st p, [], [], []⟩ :=
  handle_event_of_core hdrop (handle_core_no_template ha hr hml hat htm)

theorem C8_missing_template_amended_witness :
    handle_event emptyCfg cleanEnv 0 "U" [] pC8 = .ok ⟨[], [], [], []⟩ :=
  (C8_missing_template_amended emptyCfg cleanEnv 0 "U" [] pC8 "edited" "bar"
      "dev@bar.apache.org" rfl rfl rfl (by decide) (by decide) rfl).trans
    (by decide)

/-! ## Claim C6 -/

theorem issueTypeOf_cases (itype : String) :
    issueTypeOf itype = "issues" ∨ issueTypeOf itype = "pullrequests" := by
  unfold issueTypeOf
  split
  · exact Or.inl rfl
  · exact Or.inr rfl

theorem eventCategoryOf_cases (action : String) :
    eventCategoryOf action = "comment" ∨ eventCategoryOf action = "status" ∨
      eventCategoryOf action = "unknown" := by
  unfold eventCategoryOf
  split
  · exact Or.inl rfl
  · split
    · exact Or.inr (Or.inl rfl)
    · exact Or.inr (Or.inr rfl)

/-- Neither generic candidate key ever contains the `_bot_` infix
marker, whatever the event type and action. -/
theorem genericKey_no_bot (itype action : String) :
    strContainsSub (issueTypeOf itype ++ "_" ++ eventCategoryOf action) "_bot_" = false ∧
    strContainsSub (issueTypeOf itype) "_bot_" = false := by
  rcases issueTypeOf_cases itype with h1 | h1 <;>
    rcases eventCategoryOf_cases action with h2 | h2 | h2 <;>
    rw [h1, h2] <;> exact (by decide)

theorem ruleOrder_human {bl : Option (List String)} {u : String} (itype action : String)
    (hbot : is_bot bl u = false) :
    ruleOrder bl itype action u =
      [issueTypeOf itype ++ "_" ++ eventCategoryOf action, issueTypeOf itype] := by
  unfold ruleOrder
  rw [hbot]
  simp

theorem ruleOrder_bot {bl : Option (List String)} {u : String} (itype action : String)
    (hbot : is_bot bl u = true) :
    ruleOrder bl itype action u =
      [issueTypeOf itype ++ "_" ++ eventCategoryOf action ++ "_bot_" ++ strRemoveAll u "[bot]",
       issueTypeOf itype ++ "_bot_" ++ strRemoveAll u "[bot]",
       issueTypeOf itype ++ "_" ++ eventCategoryOf action, issueTypeOf itype] := by
  unfold ruleOrder
  rw [hbot]
  simp

/-- C6: for a non-commit, non-jira resolution with a known (truthy)
actor: a non-bot actor is resolved by consulting exactly the keys
`<kind>_<category>` then `<kind>`, in that order, first present
non-empty value wins (falling back to `dev@<project>`), and neither of
those keys contains the `_bot_` marker, so no `*_bot_*` key is ever
matched; a bot actor is resolved by consulting the two bot-specific
keys (built from the actor id with the `[bot]` marker removed) before
the same two generic keys. -/
theorem C6_rule_key_order (cfg : Config) (env : Env) (repo itype action u : String)
    (sch : List (String × Option String))
    (hb : buildScheme cfg env = .ok sch) (hne : sch ≠ [])
    (hcommit : itype ≠ "commit") (hjira : itype ≠ "jira") (hu : u ≠ "") :
    (is_bot env.botLines u = false →
      (get_recipient cfg env repo itype action (some u) =
        .ok (some (match firstHit sch
            [issueTypeOf itype ++ "_" ++ eventCategoryOf action, issueTypeOf itype] with
          | some v => v
          | none => "dev@" ++ projectOf repo ++ ".apache.org"))) ∧
      strContainsSub (issueTypeOf itype ++ "_" ++ eventCategoryOf action) "_bot_" = false ∧
      strContainsSub (issueTypeOf itype) "_bot_" = false) ∧
    (is_bot env.botLines u = true →
      get_recipient cfg env repo itype action (some u) =
        .ok (some (match firstHit sch
            [issueTypeOf itype ++ "_" ++ eventCategoryOf action ++ "_bot_" ++
               strRemoveAll u "[bot]",
             issueTypeOf itype ++ "_bot_" ++ strRemoveAll u "[bot]",
             issueTypeOf itype ++ "_" ++ eventCategoryOf action, issueTypeOf itype] with
          | some v => v
          | none => "dev@" ++ projectOf repo ++ ".apache.org"))) := by
  have htr : truthy (some u) = true := by simp [truthy, hu]
  have hgr := get_recipient_rules repo itype action (some u) hb hne hcommit hjira htr
  have hp : pyStr (some u) = u := rfl
  rw [hp] at hgr
  constructor
  · intro hbot
    rw [ruleOrder_human itype action hbot] at hgr
    exact ⟨hgr, (genericKey_no_bot itype action).1, (genericKey_no_bot itype action).2⟩
  · intro hbot
    rw [ruleOrder_bot itype action hbot] at hgr
    exact hgr

/-- Environment fixture for the C6 witness: the settings file has an
empty `pullrequests_comment` entry (skipped) and a non-empty
`pullrequests` entry. -/
def envC6 : Env := ⟨true,
  SchemeVal.mapping [("pullrequests_comment", some ""), ("pullrequests", some "pr@x.org")],
  ⟨[(("hooks.asfgit", "recips"), "c@x.org")]⟩, none, GhSettings.missing⟩

/-- The scheme `buildScheme` assembles from `envC6`. -/
def schC6 : List (String × Option String) :=
  [("pullrequests_comment", some ""), ("pullrequests", some "pr@x.org"),
   ("commits", some "c@x.org")]

theorem C6_rule_key_order_witness :
    get_recipient emptyCfg envC6 "foo" "pullrequest" "comment" (some "alice") =
      .ok (some "pr@x.org") :=
  (((C6_rule_key_order emptyCfg envC6 "foo" "pullrequest" "comment" "alice" schC6
      (by decide) (by decide) (by decide) (by decide) (by decide)).1 (by decide)).1).trans
    (by decide)

/-! ## Claim C7 -/

theorem strLength_pos {u : String} (h : u ≠ "") : 0 < u.length := by
  cases u with
  | mk d =>
    cases d with
    | nil => exact absurd rfl h
    | cons c t => simp [String.length]

/-- With a non-empty uuid, the fresh message id differs from the
deterministic thread id (it is strictly longer). -/
theorem msgid_fresh_ne_op (n uuid : String) (h : uuid ≠ "") :
    ("<" ++ n ++ "-" ++ uuid ++ "@gitbox.apache.org>" : String) ≠
      "<" ++ n ++ "@gitbox.apache.org>" := by
  intro he
  have hl := congrArg String.length he
  simp only [String.length_append] at hl
  have hu := strLength_pos h
  omega

/-- Template fixture for C7: a registered `open_pr` template. -/
def cfgC7 : Config :=
  ⟨[("open_pr", ([Tok.lit "s"], [Tok.lit "b"]))], none, none, "dr@apache.org", ""⟩

/-- Payload fixture for C7: an `open` action whose payload *has* a
`changes` field, holding a falsy value (e.g. `null`). -/
def pC7 : Payload := ⟨some "alice", some "open", some "r", some "pullrequest",
  some "N", "t", "x", "1", "", "", "", ChangesVal.presentFalsy⟩

/-- C7 counterexample: an `open` event whose payload *does* carry a
`changes` field (with a falsy value) still gets the deterministic
thread id and no `In-Reply-To` header -- the code tests truthiness of
`changes`, not presence -- contradicting the claim that every event
other than open-with-no-changes-field gets a distinct id plus
`In-Reply-To`. -/
theorem C7_message_id_counterexample :
    pC7.changes = ChangesVal.presentFalsy ∧
    handle_event cfgC7 cleanEnv 0 "UUIDX" [] pC7 =
      .ok ⟨[], [⟨"\"alice (via GitHub)\" <git@apache.org>", "dev@r.apache.org", "s", "b",
        "<N@gitbox.apache.org>", none⟩], [], []⟩ := by decide

/-- C7 amended: whenever a dispatch actually delivers mail, an `open`
event with no *truthy* `changes` value (absent, or present and falsy)
gets message id `<node_id@gitbox.apache.org>` and no `In-Reply-To`
header; every other delivered event gets the id
`<node_id-<uuid>@gitbox.apache.org>` -- distinct from the deterministic
id whenever the uuid is non-empty -- and an `In-Reply-To` header equal
to the deterministic id. -/
theorem C7_message_id_amended (cfg : Config) (env : Env) (now : Int) (uuid : String)
    (st : List (String × DiffComments)) (p : Payload) (a repo ml subj body : String)
    (sT bT : List Tok)
    (hdrop : droppedByFilters cfg p.repo = false)
    (ha : p.action = some a) (hr : p.repo = some repo)
    (hml : get_recipient cfg env repo (p.typ.getD "pullrequest") a p.user = .ok (some ml))
    (hat : ml.data.contains '@' = true)
    (htm : cfg.templates.lookup (a ++ "_" ++ categoryOf p) = some (sT, bT))
    (hcs : get_custom_subject env (a ++ "_" ++ categoryOf p) = .ok none)
    (hsr : renderToks sT (localsMap (pyStr p.user) a repo p.title p.text p.id p.link
      p.filename p.diff p.id (categoryOf p) (pyStr p.node_id) (a ++ "_" ++ categoryOf p) ml
      ⟨ml.data.takeWhile (fun c => c ≠ '@')⟩
      ⟨(ml.data.dropWhile (fun c => c ≠ '@')).tail⟩) = .ok subj)
    (hbr : renderToks bT (localsMap (pyStr p.user) a repo p.title p.text p.id p.link
      p.filename p.diff p.id (categoryOf p) (pyStr p.node_id) (a ++ "_" ++ categoryOf p) ml
      ⟨ml.data.takeWhile (fun c => c ≠ '@')⟩
      ⟨(ml.data.dropWhile (fun c => c ≠ '@')).tail⟩) = .ok body) :
    ∃ js,
      handle_event cfg env now uuid st p =
        .ok ⟨eventState now st p,
          [⟨"\"" ++ pyStr p.user ++ " (via GitHub)\" <git@apache.org>", ml, subj, body,
            if a = "open" ∧ p.changes ≠ ChangesVal.presentTruthy then
              "<" ++ pyStr p.node_id ++ "@gitbox.apache.org>"
            else "<" ++ pyStr p.node_id ++ "-" ++ uuid ++ "@gitbox.apache.org>",
            if a = "open" ∧ p.changes ≠ ChangesVal.presentTruthy then none
            else some ("<" ++ pyStr p.node_id ++ "@gitbox.apache.org>")⟩],
          js, []⟩ ∧
      (uuid ≠ "" →
        ("<" ++ pyStr p.node_id ++ "-" ++ uuid ++ "@gitbox.apache.org>" : String) ≠
          "<" ++ pyStr p.node_id ++ "@gitbox.apache.org>") := by
  obtain ⟨sch, hb⟩ := buildScheme_ok_of_recipient hml
  obtain ⟨jop, hj⟩ := get_recipient_total repo "jira" "comment" none hb
  refine ⟨(if truthy jop then [⟨pyStr jop, p.id, p.title, strBefore body "-- ", p.link⟩]
    else []), ?_, fun huu => msgid_fresh_ne_op (pyStr p.node_id) uuid huu⟩
  have hcore : handle_core cfg env uuid p =
      .ok ([⟨"\"" ++ pyStr p.user ++ " (via GitHub)\" <git@apache.org>", ml, subj, body,
        if a = "open" ∧ p.changes ≠ ChangesVal.presentTruthy then
          "<" ++ pyStr p.node_id ++ "@gitbox.apache.org>"
        else "<" ++ pyStr p.node_id ++ "-" ++ uuid ++ "@gitbox.apache.org>",
        if a = "open" ∧ p.changes ≠ ChangesVal.presentTruthy then none
        else some ("<" ++ pyStr p.node_id ++ "@gitbox.apache.org>")⟩],
        if truthy jop then [⟨pyStr jop, p.id, p.title, strBefore body "-- ", p.link⟩]
        else []) := by
    unfold handle_core
    rw [ha]
    dsimp only
    rw [hr]
    dsimp only
    rw [hml]
    dsimp only
    rw [hat]
    simp only [not_true, if_false, reduceIte]
    rw [htm]
    dsimp only
    rw [hcs]
    dsimp only
    rw [show pyStr (some repo) = repo from rfl]
    rw [hsr]
    dsimp only
    rw [hbr]
    dsimp only
    rw [hj]
  exact handle_event_of_core hdrop hcore

/-- Template fixture for the C7 witness: a registered `created_pr`
template. -/
def cfgC7w : Config :=
  ⟨[("created_pr", ([Tok.lit "s"], [Tok.lit "b"]))], none, none, "dr@apache.org", ""⟩

/-- Payload fixture for the C7 witness: a comment (non-open) event. -/
def pC7w : Payload := ⟨some "alice", some "created", some "r", some "pullrequest",
  some "N", "t", "x", "1", "", "", "", ChangesVal.absent⟩

theorem C7_message_id_amended_witness :
    ∃ js,
      handle_event cfgC7w cleanEnv 0 "U7" [] pC7w =
        .ok ⟨eventState 0 [] pC7w,
          [⟨"\"" ++ pyStr pC7w.user ++ " (via GitHub)\" <git@apache.org>",
            "dev@r.apache.org", "s", "b",
            if "created" = "open" ∧ pC7w.changes ≠ ChangesVal.presentTruthy then
              "<" ++ pyStr pC7w.node_id ++ "@gitbox.apache.org>"
            else "<" ++ pyStr pC7w.node_id ++ "-" ++ "U7" ++ "@gitbox.apache.org>",
            if "created" = "open" ∧ pC7w.changes ≠ ChangesVal.presentTruthy then none
            else some ("<" ++ pyStr pC7w.node_id ++ "@gitbox.apache.org>")⟩],
          js, []⟩ ∧
      ("<" ++ pyStr pC7w.node_id ++ "-" ++ "U7" ++ "@gitbox.apache.org>" : String) ≠
        "<" ++ pyStr pC7w.node_id ++ "@gitbox.apache.org>" := by
  obtain ⟨js, h1, h2⟩ := C7_message_id_amended cfgC7w cleanEnv 0 "U7" [] pC7w "created" "r"
    "dev@r.apache.org" "s" "b" [Tok.lit "s"] [Tok.lit "b"] rfl rfl rfl (by decide) (by decide)
    (by decide) rfl (by decide) (by decide)
  exact ⟨js, h1, h2 (by decide)⟩

/-! ## Claim C10 -/

/-- Batch fixture for C10. -/
def dcC10 : DiffComments := ⟨0, ["B"], pF⟩

/-- C10 counterexample: flushing a batch dispatches the *mutated* stored
payload (`payload["diff"] = ...; payload["action"] = ...` write into the
stored dict in place), and that mutated payload differs from the
original event record -- events are not immutable through the pipeline. -/
theorem C10_immutability_counterexample :
    flush emptyCfg cleanEnv 20 "U" [("k", dcC10)] =
      .ok ⟨[], [], [], [collatedPayload dcC10]⟩ ∧
    collatedPayload dcC10 ≠ dcC10.payload := by decide

/-- C10 amended: the flush-time mutation touches *exactly* the `diff`
and `action` fields of the stored payload (setting the action to
`diffcomment_collated` and the diff to the joined blocks); every other
field is unchanged, and the collation-table insert (`AddComment`) stores
payloads as received -- every payload in the table after an insert is
either the inserted event's payload or a payload already stored. -/
theorem C10_immutability_amended (dc : DiffComments) (now : Int)
    (st : List (String × DiffComments)) (uid : String) (p : Payload) (f d t k : String)
    (dc' : DiffComments) (hmem : (k, dc') ∈ addDiff now st uid p f d t) :
    (collatedPayload dc).action = some "diffcomment_collated" ∧
    (collatedPayload dc).diff = joinWith "\n\n" dc.diffs ∧
    (collatedPayload dc).user = dc.payload.user ∧
    (collatedPayload dc).repo = dc.payload.repo ∧
    (collatedPayload dc).typ = dc.payload.typ ∧
    (collatedPayload dc).node_id = dc.payload.node_id ∧
    (collatedPayload dc).title = dc.payload.title ∧
    (collatedPayload dc).text = dc.payload.text ∧
    (collatedPayload dc).id = dc.payload.id ∧
    (collatedPayload dc).link = dc.payload.link ∧
    (collatedPayload dc).filename = dc.payload.filename ∧
    (collatedPayload dc).changes = dc.payload.changes ∧
    (dc'.payload = p ∨ ∃ dc0, (k, dc0) ∈ st ∧ dc'.payload = dc0.payload) := by
  refine ⟨rfl, rfl, rfl, rfl, rfl, rfl, rfl, rfl, rfl, rfl, rfl, rfl, ?_⟩
  unfold addDiff at hmem
  obtain ⟨e, he1, he2⟩ := List.mem_map.mp hmem
  have hpay : dc'.payload = e.2.payload := by
    split at he2
    · cases he2; rfl
    · cases he2; rfl
  have hk : e.1 = k := by
    split at he2
    · cases he2; rfl
    · cases he2; rfl
  cases hC : (st.lookup uid).isSome with
  | true =>
    rw [hC] at he1
    simp only [if_true] at he1
    right
    refine ⟨e.2, ?_, hpay⟩
    rw [← hk, Prod.mk.eta]
    exact he1
  | false =>
    rw [hC] at he1
    simp only [Bool.false_eq_true, if_false] at he1
    rcases List.mem_append.mp he1 with he1 | he1
    · right
      refine ⟨e.2, ?_, hpay⟩
      rw [← hk, Prod.mk.eta]
      exact he1
    · left
      have : e = (uid, ⟨now, [], p⟩) := by simpa using he1
      rw [hpay, this]

/-- The batch entry `addDiff` produces in the C10 witness. -/
def dcC10' : DiffComments := ⟨0, [DIFF_COMMENT_BLURB "f" "d" "t"], pF⟩

theorem C10_immutability_amended_witness :
    (("k", dcC10') ∈ addDiff 0 [] "k" pF "f" "d" "t") ∧
    ((collatedPayload dcC10).action = some "diffcomment_collated" ∧
     (collatedPayload dcC10).diff = joinWith "\n\n" dcC10.diffs ∧
     (collatedPayload dcC10).user = dcC10.payload.user ∧
     (collatedPayload dcC10).repo = dcC10.payload.repo ∧
     (collatedPayload dcC10).typ = dcC10.payload.typ ∧
     (collatedPayload dcC10).node_id = dcC10.payload.node_id ∧
     (collatedPayload dcC10).title = dcC10.payload.title ∧
     (collatedPayload dcC10).text = dcC10.payload.text ∧
     (collatedPayload dcC10).id = dcC10.payload.id ∧
     (collatedPayload dcC10).link = dcC10.payload.link ∧
     (collatedPayload dcC10).filename = dcC10.payload.filename ∧
     (collatedPayload dcC10).changes = dcC10.payload.changes ∧
     (dcC10'.payload = pF ∨ ∃ dc0, ("k", dc0) ∈ ([] : List (String × DiffComments)) ∧
       dcC10'.payload = dc0.payload)) :=
  ⟨by decide, C10_immutability_amended dcC10 0 [] "k" pF "f" "d" "t" "k" dcC10' (by decide)⟩

/-! ## Claim C1 -/

/-- First diffcomment for a key: the batch is created and holds exactly
one block. -/
theorem addDiff_nil (now : Int) (uid : String) (p : Payload) (f d t : String) :
    addDiff now [] uid p f d t = [(uid, ⟨now, [DIFF_COMMENT_BLURB f d t], p⟩)] := by
  unfold addDiff
  simp [List.lookup]

/-- Second diffcomment for the same key: the block is appended to the
existing batch. -/
theorem addDiff_singleton (now : Int) (uid : String) (p : Payload) (f d t : String)
    (dc : DiffComments) :
    addDiff now [(uid, dc)] uid p f d t =
      [(uid, { dc with diffs := dc.diffs ++ [DIFF_COMMENT_BLURB f d t] })] := by
  unfold addDiff
  simp [List.lookup]

/-- A one-batch table whose batch is expired flushes to the empty table,
emitting exactly that batch's collated payload. -/
theorem flush_singleton {cfg : Config} {env : Env} {now : Int} {uuid uid : String}
    {dc : DiffComments} {ms : List Mail} {js : List JiraCall}
    (hexp : dc.created < now - DEFAULT_DIFF_WAIT)
    (hdrop : droppedByFilters cfg (collatedPayload dc).repo = false)
    (hcore : handle_core cfg env uuid (collatedPayload dc) = .ok (ms, js)) :
    flush cfg env now uuid [(uid, dc)] = .ok ⟨[], ms, js, [collatedPayload dc]⟩ := by
  have hev := @handle_event_of_core cfg env now uuid [(uid, dc)] (collatedPayload dc) ms js
    hdrop hcore
  have heS : eventState now [(uid, dc)] (collatedPayload dc) = [(uid, dc)] := by
    simp [eventState, collatedPayload]
  rw [heS] at hev
  have hfi : flushIter cfg env now uuid [(uid, dc)] [(uid, dc)] =
      .ok ([uid], [(uid, dc)], ms, js, [collatedPayload dc]) := by
    unfold flushIter
    rw [if_pos hexp, hev]
    dsimp only
    unfold flushIter
    simp
  unfold flush
  rw [hfi]
  dsimp only
  simp

/-- Template fixture for the C1 counterexample: a `diffcomment_pr`
template *is* registered. -/
def cfgC1 : Config :=
  ⟨[("diffcomment_pr", ([Tok.lit "s"], [Tok.lit "b"]))], none, none, "dr@apache.org", ""⟩

/-- C1 counterexample: the collation gate does not stop the dispatch --
after routing the `diffcomment` into the collator the pipeline continues
into routing/rendering, and with a `diffcomment_pr` template registered
the dispatch delivers one per-comment mail, contradicting "routes each
into the collator and stops (no per-comment mail delivery is made
during that dispatch)". -/
theorem C1_diffcomment_collation_counterexample :
    pF.action = some "diffcomment" ∧
    (handle_event cfgC1 cleanEnv 0 "U" [] pF).map (fun o => (o.mails.length, o.state)) =
      .ok (1, [(collationKey pF, ⟨0, [DIFF_COMMENT_BLURB "f1" "d1" "x1"], pF⟩)]) := by
  decide

/-- C1 amended: two `diffcomment` events for the same
(repository, target id, actor) key, arriving within the quiet period,
are both routed into the collator; the dispatch does *not* stop there
(the pipeline continues into routing and rendering), but with no
`diffcomment` template registered neither dispatch delivers any mail or
tracker call; after the quiet period one flush call emits exactly one
`diffcomment_collated` event whose diff body is the two file blocks
joined in arrival order, and removes the batch. -/
theorem C1_diffcomment_collation_amended
    (cfg : Config) (env : Env) (t1 t2 tF : Int) (u1 u2 uF : String)
    (p1 p2 : Payload) (r1 r2 ml1 ml2 : String)
    (ha1 : p1.action = some "diffcomment") (ha2 : p2.action = some "diffcomment")
    (hr1 : p1.repo = some r1) (hr2 : p2.repo = some r2)
    (hd1 : droppedByFilters cfg p1.repo = false) (hd2 : droppedByFilters cfg p2.repo = false)
    (hml1 : get_recipient cfg env r1 (p1.typ.getD "pullrequest") "diffcomment" p1.user =
      .ok (some ml1))
    (hat1 : ml1.data.contains '@' = true)
    (hml2 : get_recipient cfg env r2 (p2.typ.getD "pullrequest") "diffcomment" p2.user =
      .ok (some ml2))
    (hat2 : ml2.data.contains '@' = true)
    (htm1 : cfg.templates.lookup ("diffcomment" ++ "_" ++ categoryOf p1) = none)
    (htm2 : cfg.templates.lookup ("diffcomment" ++ "_" ++ categoryOf p2) = none)
    (hkey : collationKey p2 = collationKey p1)
    (hgs1 : env.ghsettings ≠ GhSettings.scanFail)
    (hgs2 : env.ghsettings ≠ GhSettings.nonDict)
    (_hwithin : t2 < t1 + DEFAULT_DIFF_WAIT)
    (hold : t1 < tF - DEFAULT_DIFF_WAIT) :
    ∃ out1 out2 fout,
      handle_event cfg env t1 u1 [] p1 = .ok out1 ∧
      out1.mails = [] ∧ out1.jiras = [] ∧
      out1.state =
        [(collationKey p1, ⟨t1, [DIFF_COMMENT_BLURB p1.filename p1.diff p1.text], p1⟩)] ∧
      handle_event cfg env t2 u2 out1.state p2 = .ok out2 ∧
      out2.mails = [] ∧ out2.jiras = [] ∧
      out2.state =
        [(collationKey p1, ⟨t1, [DIFF_COMMENT_BLURB p1.filename p1.diff p1.text,
          DIFF_COMMENT_BLURB p2.filename p2.diff p2.text], p1⟩)] ∧
      flush cfg env tF uF out2.state = .ok fout ∧
      fout.dispatched = [{ p1 with
        action := some "diffcomment_collated",
        diff := DIFF_COMMENT_BLURB p1.filename p1.diff p1.text ++ "\n\n" ++
          DIFF_COMMENT_BLURB p2.filename p2.diff p2.text }] ∧
      fout.state = [] := by
  have hstep1 : handle_event cfg env t1 u1 [] p1 =
      .ok ⟨eventState t1 [] p1, [], [], []⟩ :=
    handle_event_of_core hd1 (handle_core_no_template ha1 hr1 hml1 hat1 htm1)
  have hs1 : eventState t1 [] p1 =
      [(collationKey p1, ⟨t1, [DIFF_COMMENT_BLURB p1.filename p1.diff p1.text], p1⟩)] := by
    unfold eventState
    rw [if_pos ha1, addDiff_nil]
  have hstep2 : handle_event cfg env t2 u2
      [(collationKey p1, ⟨t1, [DIFF_COMMENT_BLURB p1.filename p1.diff p1.text], p1⟩)] p2 =
      .ok ⟨eventState t2
        [(collationKey p1, ⟨t1, [DIFF_COMMENT_BLURB p1.filename p1.diff p1.text], p1⟩)] p2,
        [], [], []⟩ :=
    handle_event_of_core hd2 (handle_core_no_template ha2 hr2 hml2 hat2 htm2)
  have hs2 : eventState t2
      [(collationKey p1, ⟨t1, [DIFF_COMMENT_BLURB p1.filename p1.diff p1.text], p1⟩)] p2 =
      [(collationKey p1, ⟨t1, [DIFF_COMMENT_BLURB p1.filename p1.diff p1.text,
        DIFF_COMMENT_BLURB p2.filename p2.diff p2.text], p1⟩)] := by
    unfold eventState
    rw [if_pos ha2, hkey, addDiff_singleton]
    exact rfl
  -- the collated re-dispatch of the accumulated batch resolves like the
  -- original diffcomment (same event category)
  have hmlF : get_recipient cfg env r1
      ((collatedPayload ⟨t1, [DIFF_COMMENT_BLURB p1.filename p1.diff p1.text,
        DIFF_COMMENT_BLURB p2.filename p2.diff p2.text], p1⟩).typ.getD "pullrequest")
      "diffcomment_collated"
      (collatedPayload ⟨t1, [DIFF_COMMENT_BLURB p1.filename p1.diff p1.text,
        DIFF_COMMENT_BLURB p2.filename p2.diff p2.text], p1⟩).user = .ok (some ml1) := by
    rw [get_recipient_action_congr r1 _ _
      (show eventCategoryOf "diffcomment_collated" = eventCategoryOf "diffcomment" by decide)]
    exact hml1
  obtain ⟨msF, jsF, hcoreF⟩ :=
    @handle_core_ok cfg env uF
      (collatedPayload ⟨t1, [DIFF_COMMENT_BLURB p1.filename p1.diff p1.text,
        DIFF_COMMENT_BLURB p2.filename p2.diff p2.text], p1⟩)
      "diffcomment_collated" r1 ml1 rfl hr1 hmlF hat1
      (get_custom_subject_ok ("diffcomment_collated" ++ "_" ++
        categoryOf (collatedPayload ⟨t1, [DIFF_COMMENT_BLURB p1.filename p1.diff p1.text,
          DIFF_COMMENT_BLURB p2.filename p2.diff p2.text], p1⟩)) hgs1 hgs2)
  have hflush :=
    @flush_singleton cfg env tF uF (collationKey p1)
      ⟨t1, [DIFF_COMMENT_BLURB p1.filename p1.diff p1.text,
        DIFF_COMMENT_BLURB p2.filename p2.diff p2.text], p1⟩
      msF jsF hold hd1 hcoreF
  rw [hs1] at hstep1
  rw [hs2] at hstep2
  exact ⟨_, _, _, hstep1, rfl, rfl, rfl, hstep2, rfl, rfl, rfl, hflush, rfl, rfl⟩

/-- Second diffcomment fixture for the C1 witness: same
(repository, target id, actor) key as `pF`, different file. -/
def pFb : Payload :=
  ⟨some "alice", some "diffcomment", some "r", some "pullrequest", some "N",
   "t", "x2", "1", "", "f2", "d2", ChangesVal.absent⟩

theorem C1_diffcomment_collation_amended_witness :
    ∃ out1 out2 fout,
      handle_event emptyCfg cleanEnv 0 "U1" [] pF = .ok out1 ∧ out1.mails = [] ∧
      handle_event emptyCfg cleanEnv 5 "U2" out1.state pFb = .ok out2 ∧ out2.mails = [] ∧
      flush emptyCfg cleanEnv 20 "UF" out2.state = .ok fout ∧
      fout.dispatched = [{ pF with
        action := some "diffcomment_collated",
        diff := DIFF_COMMENT_BLURB pF.filename pF.diff pF.text ++ "\n\n" ++
          DIFF_COMMENT_BLURB pFb.filename pFb.diff pFb.text }] ∧
      fout.state = [] := by
  obtain ⟨o1, o2, f, h1, h2, h3, h4, h5, h6, h7, h8, h9, h10, h11⟩ :=
    C1_diffcomment_collation_amended emptyCfg cleanEnv 0 5 20 "U1" "U2" "UF" pF pFb
      "r" "r" "dev@r.apache.org" "dev@r.apache.org" rfl rfl rfl rfl (by decide) (by decide)
      (by decide) (by decide) (by decide) (by decide) rfl rfl (by decide) (by decide) (by decide)
      (by decide) (by decide)
  exact ⟨o1, o2, f, h1, h2, h5, h6, h9, h10, h11⟩

/-! ## Claim C9, counterexample -/

/-- C9 counterexample: a flush call over two expired batches whose
(first) collated re-dispatch raises -- the scheme of `envC2` routes the
collated pull-request comment to an address without `"@"` -- aborts at
line 230 with the exception: the `del` loop at lines 232-233 never
runs, so the first expired batch is dispatched but *not* removed and
the second expired batch is neither dispatched nor removed, falsifying
"every pending batch older than the quiet period is dispatched exactly
once and removed" for this call.  (In the model the aborted call is the
`.error` result: no removal is performed on it.) -/
theorem C9_flush_expired_batches_counterexample :
    ((0 : Int) < 20 - DEFAULT_DIFF_WAIT) ∧
    flush emptyCfg envC2 20 "U" [("k1", ⟨0, ["B1"], pC2⟩), ("k2", ⟨0, ["B2"], pC2⟩)] =
      .error "ValueError: not enough values to unpack" := by decide

end GithubEventNotifier
